import Mathlib

/-!
Verification of the app-reviews submission pipeline.

This file is a shallow embedding of the two Express handlers of the
repository (`src/api/index.ts`, the Vercel dev-token variant, and
`src/unnamed/part_000` alias `web/index.ts`, the Prisma-backed variant),
together with proofs about the properties stated in the specification.

Modelling conventions:
* JavaScript numbers are modelled as `JSNumber`: `NaN`, the two infinities,
  and finite values as exact rationals (every finite IEEE double is a
  dyadic rational, hence has a terminating decimal expansion, so exact
  rationals are a faithful superset).
* The JS builtins `String(x)`, `Number(x)`, `JSON.parse` are modelled by
  executable Lean functions (`jsToString`, `jsToNumber`, `jsonParse`).
  `jsToNumber` covers decimal notation and the `Infinity` keywords; the
  hexadecimal/octal/binary/exponent notations of full JS are outside the
  domain exercised by the specification and are mapped to `NaN`.
* Field values arriving from the HTTP layer are `JSValue`s (the scalar
  JS values a form post or JSON body can put in a field).
-/

/-- Model of a JavaScript number: NaN, ±Infinity, or a finite value
(represented exactly as a rational). -/
inductive JSNumber where
  | nan : JSNumber
  | inf : JSNumber
  | negInf : JSNumber
  | finite : ℚ → JSNumber
deriving DecidableEq

/-- Model of a scalar JavaScript value as found in a request field. -/
inductive JSValue where
  | undef : JSValue
  | null : JSValue
  | bool : Bool → JSValue
  | num : JSNumber → JSValue
  | str : String → JSValue
deriving DecidableEq

/-- Numeric value of a decimal digit character. -/
def digitVal (c : Char) : Nat := c.toNat - 48

/-- Decimal digit character for a value below ten. -/
def digitChar10 (d : Nat) : Char :=
  match d with
  | 0 => '0' | 1 => '1' | 2 => '2' | 3 => '3' | 4 => '4'
  | 5 => '5' | 6 => '6' | 7 => '7' | 8 => '8' | _ => '9'

/-- Value of a big-endian list of decimal digit characters
(the accumulation JS-style parsing performs). -/
def digitsValNat (l : List Char) : Nat :=
  l.foldl (fun a c => 10 * a + digitVal c) 0

/-- Fuel-driven little-endian decimal digit extraction (structural
recursion so that the kernel can evaluate it). -/
def natDigitsLEAux : Nat → Nat → List Nat
  | 0, _ => []
  | fuel + 1, n => if n = 0 then [] else (n % 10) :: natDigitsLEAux fuel (n / 10)

/-- Little-endian decimal digits of a natural number (empty for zero). -/
def natDigitsLE (n : Nat) : List Nat := natDigitsLEAux n n

/-- Value of a little-endian decimal digit list. -/
def ofDigitsLE : List Nat → Nat
  | [] => 0
  | d :: ds => d + 10 * ofDigitsLE ds

/-- Little-endian decimal digits of `m`, padded/truncated to exactly `k`
digits (used for the fractional part of a decimal rendering). -/
def padDigitsLE : Nat → Nat → List Nat
  | 0, _ => []
  | k + 1, m => (m % 10) :: padDigitsLE k (m / 10)

/-- Big-endian character rendering of a natural number. -/
def natChars (n : Nat) : List Char :=
  if n = 0 then ['0'] else ((natDigitsLE n).map digitChar10).reverse

/-- Big-endian character rendering of `m` as exactly `k` fractional digits. -/
def fracChars (k m : Nat) : List Char :=
  ((padDigitsLE k m).map digitChar10).reverse

/-- Character rendering of the integer `N` with a decimal point inserted `K`
digits from the right (no point when `K = 0`). -/
def natCharsWithPoint (N K : Nat) : List Char :=
  if K = 0 then natChars N
  else natChars (N / 10 ^ K) ++ '.' :: fracChars K (N % 10 ^ K)

/-- Splits `p`-factors off `n` (fuel-driven): returns the exponent of `p`
in `n` together with the remaining cofactor. -/
def fsplit (p : Nat) : Nat → Nat → Nat × Nat
  | 0, n => (0, n)
  | fuel + 1, n =>
    if 2 ≤ p ∧ n ≠ 0 ∧ n % p = 0 then
      let r := fsplit p fuel (n / p)
      (r.1 + 1, r.2)
    else (0, n)

/-- Exponent of the prime `p` in `n`. -/
def pExp (p n : Nat) : Nat := (fsplit p n n).1

/-- Cofactor of `n` after removing all factors `p`. -/
def pStrip (p n : Nat) : Nat := (fsplit p n n).2

/-- Number of decimal digits needed after the point to render a fraction
with denominator `den` exactly. -/
def decExpDen (den : Nat) : Nat :=
  max (pExp 2 den) (pExp 5 (pStrip 2 den))

/-- Whether `den` is of the form `2^a * 5^b`, i.e. whether a fraction with
this denominator has a terminating decimal expansion (true of the
denominator of every finite IEEE double). -/
def denTerminating (den : Nat) : Bool := pStrip 5 (pStrip 2 den) == 1

/-- Shortest exact decimal rendering of a rational whose denominator is of
the form `2^a * 5^b`; this is how JS renders every finite double. Rationals
outside that set are unreachable as JS numbers; they get a placeholder. -/
def ratDecStr (q : ℚ) : String :=
  if denTerminating q.den then
    let K := decExpDen q.den
    let N := q.num.natAbs * (10 ^ K / q.den)
    (if q.num < 0 then "-" else "") ++ String.mk (natCharsWithPoint N K)
  else "?"

/-- Model of JS number-to-string conversion. -/
def jsNumToString : JSNumber → String
  | .nan => "NaN"
  | .inf => "Infinity"
  | .negInf => "-Infinity"
  | .finite q => ratDecStr q

/-- Negation of a JS number (used for a leading minus sign when parsing). -/
def jsNeg : JSNumber → JSNumber
  | .finite q => .finite (-q)
  | .inf => .negInf
  | .negInf => .inf
  | .nan => .nan

/-- Decimal-notation core of JS string-to-number parsing: digits with an
optional single point, after sign and whitespace have been handled. -/
def parseDecimal (cs : List Char) : JSNumber :=
  let d1 := cs.takeWhile Char.isDigit
  let rest := cs.dropWhile Char.isDigit
  if rest = [] then
    if d1 = [] then .nan else .finite (digitsValNat d1)
  else if rest.head? = some '.' then
    let tl := rest.tail
    let d2 := tl.takeWhile Char.isDigit
    let rest3 := tl.dropWhile Char.isDigit
    if rest3 = [] ∧ (d1 ≠ [] ∨ d2 ≠ []) then
      .finite ((digitsValNat d1 : ℚ) + (digitsValNat d2 : ℚ) / 10 ^ d2.length)
    else .nan
  else .nan

/-- Strips leading and trailing whitespace (JS `ToNumber` trims). -/
def trimChars (l : List Char) : List Char :=
  ((l.dropWhile Char.isWhitespace).reverse.dropWhile Char.isWhitespace).reverse

/-- Model of JS `Number(string)`: trim, empty string is zero, `Infinity`
keywords, optional sign, then decimal notation; anything else is NaN. -/
def jsStringToNumber (s : String) : JSNumber :=
  let cs := trimChars s.toList
  if cs = [] then .finite 0
  else if cs = ("Infinity".toList) ∨ cs = ("+Infinity".toList) then .inf
  else if cs = ("-Infinity".toList) then .negInf
  else if cs.head? = some '+' then parseDecimal cs.tail
  else if cs.head? = some '-' then jsNeg (parseDecimal cs.tail)
  else parseDecimal cs

/-- Model of JS `String(value)`. -/
def jsToString : JSValue → String
  | .undef => "undefined"
  | .null => "null"
  | .bool true => "true"
  | .bool false => "false"
  | .num n => jsNumToString n
  | .str s => s

/-- Model of JS `Number(value)`. -/
def jsToNumber : JSValue → JSNumber
  | .undef => .nan
  | .null => .finite 0
  | .bool true => .finite 1
  | .bool false => .finite 0
  | .num n => n
  | .str s => jsStringToNumber s

/-- Model of JS `a ?? b` (nullish coalescing) on values. -/
def jsNullish (a b : JSValue) : JSValue :=
  match a with
  | .undef => b
  | .null => b
  | _ => a

/-- Model of JS `String.prototype.startsWith`. -/
def jsStartsWith (s p : String) : Bool :=
  p.toList.isPrefixOf s.toList

/-- Whether a JS number is finite (`Number.isFinite`). -/
def jsIsFinite : JSNumber → Bool
  | .finite _ => true
  | _ => false

/-- Whether a JS number is an integer (`Number.isInteger`). -/
def jsIsInteger : JSNumber → Bool
  | .finite q => q.den == 1
  | _ => false

/-- Model of JS `n < c` for a number against a rational constant
(false whenever `n` is NaN). -/
def jsLt (n : JSNumber) (c : ℚ) : Bool :=
  match n with
  | .finite q => decide (q < c)
  | .negInf => true
  | _ => false

/-- Model of JS `n > c` for a number against a rational constant
(false whenever `n` is NaN). -/
def jsGt (n : JSNumber) (c : ℚ) : Bool :=
  match n with
  | .finite q => decide (c < q)
  | .inf => true
  | _ => false

/-- Embeds `toProductGid` of `api/index.ts` lines 65-70 (identical to
`web/index.ts` lines 29-34): prefix-matching fast path, otherwise numeric
parse accepting finite values strictly greater than zero. -/
def toProductGid (id : JSValue) : Option String :=
  let s := jsToString id
  if jsStartsWith s ("gid://shopify/Product/") then some s
  else
    match jsStringToNumber s with
    | .finite n => if 0 < n then some ("gid://shopify/Product/" ++ jsNumToString (.finite n)) else none
    | _ => none

/-- Model of a parsed JSON document (the result of `JSON.parse`). -/
inductive Json where
  | null : Json
  | bool : Bool → Json
  | num : ℚ → Json
  | str : String → Json
  | arr : List Json → Json
  | obj : List (String × Json) → Json

/-- Opening brace character (written by code point to keep braces out of
string literals). -/
def lbraceC : Char := Char.ofNat 123

/-- Closing brace character. -/
def rbraceC : Char := Char.ofNat 125

/-- Whitespace accepted between JSON tokens. -/
def isJsonWs (c : Char) : Bool := c = ' ' || c = '\t' || c = '\n' || c = '\r'

/-- Skips JSON inter-token whitespace. -/
def skipWs (cs : List Char) : List Char := cs.dropWhile isJsonWs

/-- Translation of a JSON escape character (`\uXXXX` unsupported). -/
def escChar (c : Char) : Option Char :=
  if c = '"' then some '"'
  else if c = '\\' then some '\\'
  else if c = '/' then some '/'
  else if c = 'n' then some '\n'
  else if c = 't' then some '\t'
  else if c = 'r' then some '\r'
  else if c = 'b' then some (Char.ofNat 8)
  else if c = 'f' then some (Char.ofNat 12)
  else none

/-- Reads the characters of a JSON string literal after the opening quote,
returning the content and the remainder after the closing quote. -/
def strChars : List Char → Option (List Char × List Char)
  | [] => none
  | '\\' :: c :: rest =>
    (escChar c).bind fun e => (strChars rest).map fun p => (e :: p.1, p.2)
  | '"' :: rest => some ([], rest)
  | c :: rest => (strChars rest).map fun p => (c :: p.1, p.2)

/-- Reads a JSON number (sign, digits, optional fraction; exponents are
outside the exercised domain and rejected). -/
def parseJsonNumber (cs : List Char) : Option (ℚ × List Char) :=
  let sr : Bool × List Char :=
    match cs with
    | c :: t => if c = '-' then (true, t) else (false, cs)
    | [] => (false, [])
  let d1 := sr.2.takeWhile Char.isDigit
  let r1 := sr.2.dropWhile Char.isDigit
  if d1 = [] then none
  else
    match r1 with
    | '.' :: r2 =>
      let d2 := r2.takeWhile Char.isDigit
      let r3 := r2.dropWhile Char.isDigit
      if d2 = [] then none
      else
        let v : ℚ := (digitsValNat d1 : ℚ) + (digitsValNat d2 : ℚ) / 10 ^ d2.length
        some ((if sr.1 then -v else v), r3)
    | _ => some ((if sr.1 then -(digitsValNat d1 : ℚ) else (digitsValNat d1 : ℚ)), r1)

mutual

/-- Fuel-driven recursive-descent JSON value parser. -/
def parseVal : Nat → List Char → Option (Json × List Char)
  | 0, _ => none
  | fuel + 1, cs =>
    match skipWs cs with
    | [] => none
    | c :: rest =>
      if c = '"' then (strChars rest).map fun p => (Json.str (String.mk p.1), p.2)
      else if c = lbraceC then parseObjBody fuel (skipWs rest)
      else if c = '[' then parseArrBody fuel (skipWs rest)
      else if c = 't' then
        if ("rue".toList).isPrefixOf rest then some (Json.bool true, rest.drop 3) else none
      else if c = 'f' then
        if ("alse".toList).isPrefixOf rest then some (Json.bool false, rest.drop 4) else none
      else if c = 'n' then
        if ("ull".toList).isPrefixOf rest then some (Json.null, rest.drop 3) else none
      else (parseJsonNumber (c :: rest)).map fun p => (Json.num p.1, p.2)

/-- Parses an array body after the opening bracket (whitespace skipped). -/
def parseArrBody : Nat → List Char → Option (Json × List Char)
  | 0, _ => none
  | fuel + 1, cs =>
    match cs with
    | [] => none
    | c :: rest =>
      if c = ']' then some (Json.arr [], rest)
      else (parseVal fuel (c :: rest)).bind fun p => parseArrRest fuel [p.1] (skipWs p.2)

/-- Parses the continuation of an array after at least one element. -/
def parseArrRest : Nat → List Json → List Char → Option (Json × List Char)
  | 0, _, _ => none
  | fuel + 1, acc, cs =>
    match cs with
    | [] => none
    | c :: rest =>
      if c = ']' then some (Json.arr acc.reverse, rest)
      else if c = ',' then
        (parseVal fuel (skipWs rest)).bind fun p => parseArrRest fuel (p.1 :: acc) (skipWs p.2)
      else none

/-- Parses an object body after the opening brace (whitespace skipped). -/
def parseObjBody : Nat → List Char → Option (Json × List Char)
  | 0, _ => none
  | fuel + 1, cs =>
    match cs with
    | [] => none
    | c :: rest =>
      if c = rbraceC then some (Json.obj [], rest)
      else (parseMember fuel (c :: rest)).bind fun p => parseObjRest fuel [p.1] (skipWs p.2)

/-- Parses the continuation of an object after at least one member. -/
def parseObjRest : Nat → List (String × Json) → List Char → Option (Json × List Char)
  | 0, _, _ => none
  | fuel + 1, acc, cs =>
    match cs with
    | [] => none
    | c :: rest =>
      if c = rbraceC then some (Json.obj acc.reverse, rest)
      else if c = ',' then
        (parseMember fuel (skipWs rest)).bind fun p => parseObjRest fuel (p.1 :: acc) (skipWs p.2)
      else none

/-- Parses one `"key": value` member of an object. -/
def parseMember : Nat → List Char → Option ((String × Json) × List Char)
  | 0, _ => none
  | fuel + 1, cs =>
    match cs with
    | [] => none
    | c :: rest =>
      if c = '"' then
        (strChars rest).bind fun kp =>
          match skipWs kp.2 with
          | c2 :: r2 =>
            if c2 = ':' then
              (parseVal fuel (skipWs r2)).map fun p => ((String.mk kp.1, p.1), p.2)
            else none
          | [] => none
      else none

end

/-- Model of `JSON.parse`: parse one value and require only trailing
whitespace; any other input throws, modelled as `none`. -/
def jsonParse (s : String) : Option Json :=
  match parseVal (2 * s.length + 2) s.toList with
  | some (j, r) => if skipWs r = [] then some j else none
  | none => none

/-- Model of JS property access `j.k` via optional chaining: defined only
on objects (last duplicate key wins, as in `JSON.parse`); on every other
value the access yields undefined, modelled as `none`. -/
def jGet (j : Json) (k : String) : Option Json :=
  match j with
  | .obj l => List.lookup k l.reverse
  | _ => none

/-- Model of the optional chain `o?.k`. -/
def jChain (o : Option Json) (k : String) : Option Json :=
  o.bind fun j => jGet j k

/-- Model of `x ?? d` where `x` may be undefined (`none`) or JSON null. -/
def jsonNullish (o : Option Json) (d : Json) : Json :=
  match o with
  | some .null => d
  | some j => j
  | none => d

/-- Model of the JS `.length` read used on the error list: arrays and
strings have numeric lengths, objects may carry a `length` member, any
other value yields undefined. -/
def jLen (j : Json) : Option Json :=
  match j with
  | .arr l => some (.num l.length)
  | .str s => some (.num s.length)
  | .obj _ => jGet j ("length")
  | _ => none

/-- JS truthiness of a possibly-undefined JSON value. -/
def jTruthy (o : Option Json) : Bool :=
  match o with
  | none => false
  | some .null => false
  | some (.bool b) => b
  | some (.num q) => decide (q ≠ 0)
  | some (.str s) => decide (s ≠ "")
  | some (.arr _) => true
  | some (.obj _) => true

/-- The chain `json?.data?.metaobjectCreate?.userErrors` of both handlers. -/
def userErrorsOf (j : Json) : Option Json :=
  jChain (jChain (jChain (some j) ("data")) ("metaobjectCreate")) ("userErrors")

/-- The chain `json?.data?.metaobjectCreate?.metaobject?.id` of both handlers. -/
def idOf (j : Json) : Option Json :=
  jChain (jChain (jChain (jChain (some j) ("data")) ("metaobjectCreate")) ("metaobject")) ("id")

/-- Rendering directive handed to the HTML renderer (`sendHtml`'s `opts`):
ok flag, return-navigation target, optional created-entity id, optional
user-facing message. -/
structure Directive where
  ok : Bool
  returnTo : String
  id : Option Json
  message : Option String

/-- Minimal model of the HTTP response the handler sends. -/
structure HttpResponse where
  status : Nat
  contentType : String
  body : String

/-- Model of `JSON.stringify` on a string (quote and escape). -/
def jsStringifyStr (s : String) : String :=
  "\"" ++ String.mk (s.toList.foldr
    (fun c acc =>
      if c = '"' then '\\' :: '"' :: acc
      else if c = '\\' then '\\' :: '\\' :: acc
      else if c = '\n' then '\\' :: 'n' :: acc
      else c :: acc) []) ++ "\""

/-- Display conversion for the interpolated review id (a string in the
documented remote contract; other JSON values get their JS rendering). -/
def jsonDisplay (o : Option Json) : String :=
  match o with
  | some (.str s) => s
  | some (.num q) => ratDecStr q
  | some (.bool true) => "true"
  | some (.bool false) => "false"
  | some .null => "null"
  | some (.arr _) => ""
  | some (.obj _) => "[object Object]"
  | none => "undefined"

/-- Embeds `sendHtml` of `api/index.ts` lines 21-35: an HTTP 200 `text/html`
response rendered from the directive (Express resolves `.type("html")` to
the `text/html` content type). -/
def apiSendHtml (d : Directive) : HttpResponse :=
  { status := 200
    contentType := "text/html"
    body :=
      "<!doctype html>\n<meta charset=\"utf-8\"><style>body\x7bfont:16px system-ui;padding:24px\x7d</style>\n<h1>"
        ++ (if d.ok then "Thanks for your review!" else "We couldn\x27t save your review")
        ++ "</h1>\n"
        ++ (if jTruthy d.id then "<p>Review ID: " ++ jsonDisplay d.id ++ "</p>" else "")
        ++ (match d.message with
            | some m => "<p><small>" ++ m ++ "</small></p>"
            | none => "")
        ++ "\n<p><a href=\"" ++ d.returnTo ++ "\">Continue</a></p>\n<script>location.replace("
        ++ jsStringifyStr d.returnTo ++ ");</script>" }

/-- Embeds the quote-escaping helper `esc` of `web/index.ts` line 41. -/
def escQuot (s : String) : String := s.replace ("\"") ("&quot;")

/-- Embeds `sendHtml` of `web/index.ts` lines 36-52 (the Prisma variant:
escaped `href`, extra title element). -/
def webSendHtml (d : Directive) : HttpResponse :=
  { status := 200
    contentType := "text/html"
    body :=
      "<!doctype html>\n<meta charset=\"utf-8\">\n<title>"
        ++ (if d.ok then "Thanks!" else "We couldn\x27t save your review")
        ++ "</title>\n<style>body\x7bfont:16px/1.4 system-ui, sans-serif; padding:24px\x7d</style>\n<h1>"
        ++ (if d.ok then "Thanks for your review!" else "We couldn\x27t save your review")
        ++ "</h1>\n"
        ++ (if jTruthy d.id then "<p>Review ID: " ++ jsonDisplay d.id ++ "</p>" else "")
        ++ "\n"
        ++ (match d.message with
            | some m => "<p><small>" ++ m ++ "</small></p>"
            | none => "")
        ++ "\n<p><a href=\"" ++ escQuot d.returnTo ++ "\">Continue</a></p>\n<script>location.replace("
        ++ jsStringifyStr d.returnTo ++ ");</script>" }

/-- Inbound submission request: the fields both handlers read from the
query string, headers and body. -/
structure SubReq where
  queryShop : Option String
  headerShop : Option String
  product_id : JSValue
  productId : JSValue
  rating : JSValue
  title : JSValue
  body : JSValue
  author : JSValue
  email : JSValue
  bodyReturnTo : Option String
  queryReturnTo : Option String

/-- JS `a || b` for an optional string against a default
(absent and empty are both falsy). -/
def orStr (a : Option String) (b : String) : String :=
  match a with
  | some s => if s = "" then b else s
  | none => b

/-- The handlers' shop resolution: `req.query.shop || header || ""`. -/
def resolveShop (sub : SubReq) : String :=
  orStr sub.queryShop (orStr sub.headerShop (""))

/-- The handlers' return-target resolution:
`body.return_to || req.query.return_to || "/"`. -/
def resolveReturnTo (sub : SubReq) : String :=
  orStr sub.bodyReturnTo (orStr sub.queryReturnTo ("/"))

/-- The coerced text fields: `String(b.title ?? "")` and friends. -/
def strField (v : JSValue) : String := jsToString (jsNullish v (.str ""))

/-- The rating rejection test of both handlers
(`!Number.isInteger(rating) || rating < 1 || rating > 5`). -/
def ratingRejected (v : JSValue) : Bool :=
  let rating := jsToNumber v
  !(jsIsInteger rating) || jsLt rating 1 || jsGt rating 5

/-- Environment of the Vercel handler: the two dev-credential variables. -/
structure Env where
  devShop : Option String
  devToken : Option String

/-- The dev-credential gate of `api/index.ts` line 88:
`!devShop || !devToken || shop !== devShop`. -/
def devGateBlocked (env : Env) (shop : String) : Bool :=
  (env.devShop).getD ("") = "" || (env.devToken).getD ("") = ""
    || shop ≠ (env.devShop).getD ("")

/-- Behavior of the remote GraphQL endpoint for one request: the network
call (fetch plus body read) either raises, or yields a raw body text. -/
inductive RemoteOutcome where
  | throws : RemoteOutcome
  | body : String → RemoteOutcome

/-- Result of the credential-store lookup of the Prisma handler
(`prisma.session.findFirst({where:{shop, isOnline:false}})` followed by
`session?.accessToken`): the lookup can raise, find no usable token, or
yield an access token (empty string modelling a present-but-falsy token). -/
inductive SessionLookup where
  | crash : SessionLookup
  | res : Option String → SessionLookup

/-- The ordered mutation field list both handlers build (the Mutation
Builder): `new Date().toISOString()` is passed in as `now`. -/
def mkFields (gid ratingStr title body author email now : String) : List (String × String) :=
  [("product", gid), ("rating", ratingStr), ("title", title), ("body", body),
   ("author", author), ("email", email), ("status", "approved"), ("created", now)]

/-- The remote phase shared verbatim by both handlers (`api/index.ts`
lines 124-147, `web/index.ts` lines 167-201): transport exception caught
as "Server error"; body parsed with `JSON.parse`; parse failure reported
as "API returned non-JSON"; a truthy `userErrors.length` as "Validation
error"; otherwise success with the extracted id. -/
def classifyRemote (remote : RemoteOutcome) (returnTo : String) : Directive :=
  match remote with
  | .throws => { ok := false, returnTo := returnTo, id := none, message := some ("Server error") }
  | .body raw =>
    match jsonParse raw with
    | none => { ok := false, returnTo := returnTo, id := none, message := some ("API returned non-JSON") }
    | some j =>
      let errs := jsonNullish (userErrorsOf j) (Json.arr [])
      if jTruthy (jLen errs) then
        { ok := false, returnTo := returnTo, id := none, message := some ("Validation error") }
      else
        { ok := true, returnTo := returnTo, id := idOf j, message := none }

/-- Result of one handler invocation: the rendering directive together
with whether the credential gate/lookup was consulted, whether the remote
call was issued, and the mutation payload when one was built. -/
structure SubmitResult where
  directive : Directive
  usedCredential : Bool
  calledRemote : Bool
  payload : Option (List (String × String))

/-- Embeds the `/reviews/submit` handler of `api/index.ts` lines 73-148:
missing shop, then the dev-credential gate, then product normalization,
then the rating check, then the mutation build and remote phase; the
outer catch maps any exception from the awaited calls to "Server error". -/
def apiSubmit (sub : SubReq) (env : Env) (remote : RemoteOutcome) (now : String) : SubmitResult :=
  let shop := resolveShop sub
  let returnTo := resolveReturnTo sub
  if shop = "" then
    ⟨{ ok := false, returnTo := returnTo, id := none, message := some ("Missing shop") }, false, false, none⟩
  else if devGateBlocked env shop then
    ⟨{ ok := false, returnTo := returnTo, id := none, message := some ("App not authorized for this shop") }, true, false, none⟩
  else
    match toProductGid (jsNullish sub.product_id sub.productId) with
    | none =>
      ⟨{ ok := false, returnTo := returnTo, id := none, message := some ("Invalid product id") }, true, false, none⟩
    | some gid =>
      if ratingRejected sub.rating then
        ⟨{ ok := false, returnTo := returnTo, id := none, message := some ("Rating must be 1..5") }, true, false, none⟩
      else
        ⟨classifyRemote remote returnTo, true, true,
          some (mkFields gid (jsNumToString (jsToNumber sub.rating)) (strField sub.title)
            (strField sub.body) (strField sub.author) (strField sub.email) now)⟩

/-- Embeds the `/reviews/submit` handler of `web/index.ts` lines 102-202:
missing shop, then product normalization, then the rating check, then the
Prisma offline-session lookup, then the mutation build and remote phase;
the outer catch maps any exception (including one from the lookup itself)
to "Server error". -/
def webSubmit (sub : SubReq) (store : String → SessionLookup) (remote : RemoteOutcome) (now : String) : SubmitResult :=
  let shop := resolveShop sub
  let returnTo := resolveReturnTo sub
  if shop = "" then
    ⟨{ ok := false, returnTo := returnTo, id := none, message := some ("Missing shop") }, false, false, none⟩
  else
    match toProductGid (jsNullish sub.product_id sub.productId) with
    | none =>
      ⟨{ ok := false, returnTo := returnTo, id := none, message := some ("Invalid product id") }, false, false, none⟩
    | some gid =>
      if ratingRejected sub.rating then
        ⟨{ ok := false, returnTo := returnTo, id := none, message := some ("Rating must be 1..5") }, false, false, none⟩
      else
        match store shop with
        | .crash =>
          ⟨{ ok := false, returnTo := returnTo, id := none, message := some ("Server error") }, true, false, none⟩
        | .res tok =>
          if tok.getD ("") = "" then
            ⟨{ ok := false, returnTo := returnTo, id := none, message := some ("App not authorized for this shop") }, true, false, none⟩
          else
            ⟨classifyRemote remote returnTo, true, true,
              some (mkFields gid (jsNumToString (jsToNumber sub.rating)) (strField sub.title)
                (strField sub.body) (strField sub.author) (strField sub.email) now)⟩

/-- The full HTTP response of the Vercel handler (every exit of the source
handler goes through `sendHtml`). -/
def apiRespond (sub : SubReq) (env : Env) (remote : RemoteOutcome) (now : String) : HttpResponse :=
  apiSendHtml (apiSubmit sub env remote now).directive

/-- The full HTTP response of the Prisma handler. -/
def webRespond (sub : SubReq) (store : String → SessionLookup) (remote : RemoteOutcome) (now : String) : HttpResponse :=
  webSendHtml (webSubmit sub store remote now).directive

/-- Classified outcome of one submission, exactly the tagged result of
specification section 3. -/
inductive Outcome where
  | success : Option Json → Outcome
  | missingTenant : Outcome
  | invalidProductReference : Outcome
  | invalidRating : Outcome
  | unauthorized : Outcome
  | remoteValidationError : Outcome
  | remoteUnparseable : Outcome
  | transportError : Outcome

/-- The Outcome Reporter of specification section 4.6: the pure mapping
from a classified outcome and return target to the rendering directive,
with one literal message per failure reason. -/
def directiveOf (o : Outcome) (rt : String) : Directive :=
  match o with
  | .success idj => { ok := true, returnTo := rt, id := idj, message := none }
  | .missingTenant => { ok := false, returnTo := rt, id := none, message := some ("Missing shop") }
  | .invalidProductReference => { ok := false, returnTo := rt, id := none, message := some ("Invalid product id") }
  | .invalidRating => { ok := false, returnTo := rt, id := none, message := some ("Rating must be 1..5") }
  | .unauthorized => { ok := false, returnTo := rt, id := none, message := some ("App not authorized for this shop") }
  | .remoteValidationError => { ok := false, returnTo := rt, id := none, message := some ("Validation error") }
  | .remoteUnparseable => { ok := false, returnTo := rt, id := none, message := some ("API returned non-JSON") }
  | .transportError => { ok := false, returnTo := rt, id := none, message := some ("Server error") }

/-- Classification of the remote phase as an `Outcome` (specification 4.5,
with the handlers' truthiness test on the error list). -/
def remoteOutcomeOf (remote : RemoteOutcome) : Outcome :=
  match remote with
  | .throws => .transportError
  | .body raw =>
    match jsonParse raw with
    | none => .remoteUnparseable
    | some j =>
      if jTruthy (jLen (jsonNullish (userErrorsOf j) (Json.arr []))) then .remoteValidationError
      else .success (idOf j)

/-- Specification-side outcome of the Prisma handler, with the check order
the specification states: missing tenant, invalid product reference,
invalid rating, then the credential gate, then the remote phase. -/
def specOutcomeWeb (sub : SubReq) (store : String → SessionLookup) (remote : RemoteOutcome) : Outcome :=
  if resolveShop sub = "" then .missingTenant
  else
    match toProductGid (jsNullish sub.product_id sub.productId) with
    | none => .invalidProductReference
    | some _ =>
      if ratingRejected sub.rating then .invalidRating
      else
        match store (resolveShop sub) with
        | .crash => .transportError
        | .res tok => if tok.getD ("") = "" then .unauthorized else remoteOutcomeOf remote

/-- Outcome of the Vercel handler as the code orders it: the credential
gate runs second, before product and rating validation. -/
def specOutcomeApi (sub : SubReq) (env : Env) (remote : RemoteOutcome) : Outcome :=
  if resolveShop sub = "" then .missingTenant
  else if devGateBlocked env (resolveShop sub) then .unauthorized
  else
    match toProductGid (jsNullish sub.product_id sub.productId) with
    | none => .invalidProductReference
    | some _ =>
      if ratingRejected sub.rating then .invalidRating
      else remoteOutcomeOf remote

/-- Canonical product reference of specification section 3 with the
namespace instantiated to the one the code uses: the fixed prefix followed
by a nonempty digit string of positive value. -/
def isCanonicalRef (s : String) : Bool :=
  jsStartsWith s ("gid://shopify/Product/") &&
    (let d := s.drop ("gid://shopify/Product/").length
     decide (d ≠ "") && d.toList.all Char.isDigit && decide (0 < digitsValNat d.toList))

/-! ### Decimal digit lemmas -/

theorem natDigitsLEAux_zero (fuel : Nat) : natDigitsLEAux fuel 0 = [] := by
  cases fuel with
  | zero => rfl
  | succ f => simp [natDigitsLEAux]

theorem natDigitsLEAux_irrel : ∀ f1 n, n ≤ f1 → ∀ f2, n ≤ f2 →
    natDigitsLEAux f1 n = natDigitsLEAux f2 n := by
  intro f1
  induction f1 with
  | zero =>
    intro n hn f2 _
    have : n = 0 := Nat.le_zero.mp hn
    subst this
    rw [natDigitsLEAux_zero, natDigitsLEAux_zero]
  | succ f ih =>
    intro n hn f2 hn2
    by_cases h0 : n = 0
    · subst h0
      rw [natDigitsLEAux_zero, natDigitsLEAux_zero]
    · cases f2 with
      | zero => omega
      | succ g =>
        rw [natDigitsLEAux, natDigitsLEAux, if_neg h0, if_neg h0]
        have hlt : n / 10 < n := Nat.div_lt_self (Nat.pos_of_ne_zero h0) (by decide)
        rw [ih (n / 10) (by omega) g (by omega)]

theorem natDigitsLE_unfold (n : Nat) (h : n ≠ 0) :
    natDigitsLE n = (n % 10) :: natDigitsLE (n / 10) := by
  unfold natDigitsLE
  cases n with
  | zero => exact absurd rfl h
  | succ m =>
    rw [natDigitsLEAux, if_neg h]
    have hlt : (m + 1) / 10 < m + 1 := Nat.div_lt_self (Nat.succ_pos m) (by decide)
    rw [natDigitsLEAux_irrel m ((m + 1) / 10) (by omega) ((m + 1) / 10) (le_refl _)]

theorem ofDigitsLE_natDigitsLE (n : Nat) : ofDigitsLE (natDigitsLE n) = n := by
  induction n using Nat.strong_induction_on with
  | _ n ih =>
    by_cases h0 : n = 0
    · subst h0; rfl
    · rw [natDigitsLE_unfold n h0, ofDigitsLE,
        ih (n / 10) (Nat.div_lt_self (Nat.pos_of_ne_zero h0) (by decide))]
      omega

theorem natDigitsLE_lt10 (n : Nat) : ∀ d ∈ natDigitsLE n, d < 10 := by
  induction n using Nat.strong_induction_on with
  | _ n ih =>
    by_cases h0 : n = 0
    · subst h0; simp [natDigitsLE, natDigitsLEAux]
    · rw [natDigitsLE_unfold n h0]
      intro d hd
      rcases List.mem_cons.mp hd with h | h
      · omega
      · exact ih (n / 10) (Nat.div_lt_self (Nat.pos_of_ne_zero h0) (by decide)) d h

theorem natDigitsLE_ne_nil (n : Nat) (h : n ≠ 0) : natDigitsLE n ≠ [] := by
  rw [natDigitsLE_unfold n h]
  simp

theorem padDigitsLE_lt10 (k m : Nat) : ∀ d ∈ padDigitsLE k m, d < 10 := by
  induction k generalizing m with
  | zero => simp [padDigitsLE]
  | succ k ih =>
    rw [padDigitsLE]
    intro d hd
    rcases List.mem_cons.mp hd with h | h
    · omega
    · exact ih (m / 10) d h

theorem padDigitsLE_length (k m : Nat) : (padDigitsLE k m).length = k := by
  induction k generalizing m with
  | zero => simp [padDigitsLE]
  | succ k ih => rw [padDigitsLE]; simp [ih]

theorem ofDigitsLE_padDigitsLE (k m : Nat) (h : m < 10 ^ k) :
    ofDigitsLE (padDigitsLE k m) = m := by
  induction k generalizing m with
  | zero => simp [padDigitsLE, ofDigitsLE]; omega
  | succ k ih =>
    rw [padDigitsLE, ofDigitsLE, ih (m / 10) (by rw [pow_succ] at h; omega)]
    omega

theorem digitVal_digitChar10 (d : Nat) (h : d < 10) : digitVal (digitChar10 d) = d := by
  interval_cases d <;> rfl

theorem isDigit_digitChar10 (d : Nat) : (digitChar10 d).isDigit = true := by
  unfold digitChar10
  rcases d with _ | _ | _ | _ | _ | _ | _ | _ | _ | d <;> rfl

theorem digitsValNat_mapRev (l : List Nat) (h : ∀ d ∈ l, d < 10) :
    digitsValNat ((l.map digitChar10).reverse) = ofDigitsLE l := by
  unfold digitsValNat
  rw [List.foldl_reverse]
  induction l with
  | nil => rfl
  | cons d ds ih =>
    rw [List.map_cons, List.foldr_cons, ofDigitsLE,
      ih (fun x hx => h x (List.mem_cons_of_mem d hx)),
      digitVal_digitChar10 d (h d (List.mem_cons_self d ds))]
    omega

theorem digitsValNat_natChars (n : Nat) : digitsValNat (natChars n) = n := by
  unfold natChars
  by_cases h : n = 0
  · subst h; rfl
  · rw [if_neg h, digitsValNat_mapRev _ (natDigitsLE_lt10 n), ofDigitsLE_natDigitsLE]

theorem natChars_all_digit (n : Nat) : ∀ c ∈ natChars n, c.isDigit = true := by
  unfold natChars
  by_cases h : n = 0
  · subst h; intro c hc; simp at hc; subst hc; rfl
  · rw [if_neg h]
    intro c hc
    rw [List.mem_reverse] at hc
    rcases List.mem_map.mp hc with ⟨d, _, rfl⟩
    exact isDigit_digitChar10 d

theorem natChars_ne_nil (n : Nat) : natChars n ≠ [] := by
  unfold natChars
  by_cases h : n = 0
  · rw [if_pos h]; simp
  · rw [if_neg h]
    simp only [ne_eq, List.reverse_eq_nil_iff, List.map_eq_nil_iff]
    exact natDigitsLE_ne_nil n h

theorem fracChars_all_digit (k m : Nat) : ∀ c ∈ fracChars k m, c.isDigit = true := by
  unfold fracChars
  intro c hc
  rw [List.mem_reverse] at hc
  rcases List.mem_map.mp hc with ⟨d, _, rfl⟩
  exact isDigit_digitChar10 d

theorem fracChars_length (k m : Nat) : (fracChars k m).length = k := by
  unfold fracChars
  rw [List.length_reverse, List.length_map, padDigitsLE_length]

theorem digitsValNat_fracChars (k m : Nat) (h : m < 10 ^ k) :
    digitsValNat (fracChars k m) = m := by
  unfold fracChars
  rw [digitsValNat_mapRev _ (padDigitsLE_lt10 k m), ofDigitsLE_padDigitsLE k m h]

/-! ### Scanning lemmas -/

theorem takeWhile_all {p : Char → Bool} {l : List Char} (h : ∀ c ∈ l, p c = true) :
    l.takeWhile p = l :=
  List.takeWhile_eq_self_iff.mpr h

theorem dropWhile_all {p : Char → Bool} {l : List Char} (h : ∀ c ∈ l, p c = true) :
    l.dropWhile p = [] :=
  List.dropWhile_eq_nil_iff.mpr h

theorem takeWhile_append_stop {p : Char → Bool} {l1 l2 : List Char} {x : Char}
    (h1 : ∀ c ∈ l1, p c = true) (h2 : p x = false) :
    (l1 ++ x :: l2).takeWhile p = l1 := by
  induction l1 with
  | nil => simp [List.takeWhile_cons, h2]
  | cons a t ih =>
    rw [List.cons_append, List.takeWhile_cons, h1 a (List.mem_cons_self a t)]
    simp only [if_true]
    rw [ih (fun c hc => h1 c (List.mem_cons_of_mem a hc))]

theorem dropWhile_append_stop {p : Char → Bool} {l1 l2 : List Char} {x : Char}
    (h1 : ∀ c ∈ l1, p c = true) (h2 : p x = false) :
    (l1 ++ x :: l2).dropWhile p = x :: l2 := by
  induction l1 with
  | nil => simp [List.dropWhile_cons, h2]
  | cons a t ih =>
    rw [List.cons_append, List.dropWhile_cons, h1 a (List.mem_cons_self a t)]
    simp only [ite_true]
    exact ih (fun c hc => h1 c (List.mem_cons_of_mem a hc))

theorem dropWhile_none {p : Char → Bool} {l : List Char} (h : ∀ c ∈ l, p c = false) :
    l.dropWhile p = l := by
  cases l with
  | nil => rfl
  | cons a t => rw [List.dropWhile_cons, h a (List.mem_cons_self a t)]; simp

theorem trimChars_eq {l : List Char} (h : ∀ c ∈ l, c.isWhitespace = false) :
    trimChars l = l := by
  unfold trimChars
  rw [dropWhile_none h, dropWhile_none (fun c hc => h c (List.mem_reverse.mp hc)),
    List.reverse_reverse]

/-! ### The decimal printer parses back to its value -/

theorem natCharsWithPoint_all (N K : Nat) :
    ∀ c ∈ natCharsWithPoint N K, c.isDigit = true ∨ c = '.' := by
  unfold natCharsWithPoint
  by_cases h : K = 0
  · rw [if_pos h]; exact fun c hc => Or.inl (natChars_all_digit N c hc)
  · rw [if_neg h]
    intro c hc
    rcases List.mem_append.mp hc with h1 | h1
    · exact Or.inl (natChars_all_digit _ c h1)
    · rcases List.mem_cons.mp h1 with h2 | h2
      · exact Or.inr h2
      · exact Or.inl (fracChars_all_digit _ _ c h2)

theorem natCharsWithPoint_head (N K : Nat) :
    ∃ c t, natCharsWithPoint N K = c :: t ∧ c.isDigit = true := by
  unfold natCharsWithPoint
  by_cases h : K = 0
  · rw [if_pos h]
    rcases List.exists_cons_of_ne_nil (natChars_ne_nil N) with ⟨c, t, hct⟩
    exact ⟨c, t, hct, natChars_all_digit N c (hct ▸ List.mem_cons_self c t)⟩
  · rw [if_neg h]
    rcases List.exists_cons_of_ne_nil (natChars_ne_nil (N / 10 ^ K)) with ⟨c, t, hct⟩
    refine ⟨c, t ++ '.' :: fracChars K (N % 10 ^ K), by rw [hct]; rfl, ?_⟩
    exact natChars_all_digit _ c (hct ▸ List.mem_cons_self c t)

theorem natCharsWithPoint_zero (N : Nat) : natCharsWithPoint N 0 = natChars N := by
  simp [natCharsWithPoint]

theorem natCharsWithPoint_pos (N K : Nat) (h : K ≠ 0) :
    natCharsWithPoint N K = natChars (N / 10 ^ K) ++ '.' :: fracChars K (N % 10 ^ K) := by
  simp [natCharsWithPoint, h]

theorem parseDecimal_natCharsWithPoint (N K : Nat) :
    parseDecimal (natCharsWithPoint N K) = .finite ((N : ℚ) / 10 ^ K) := by
  by_cases h : K = 0
  · subst h
    rw [natCharsWithPoint_zero]
    simp only [parseDecimal]
    rw [takeWhile_all (natChars_all_digit N), dropWhile_all (natChars_all_digit N)]
    rw [if_pos rfl, if_neg (natChars_ne_nil N), digitsValNat_natChars]
    norm_num
  · rw [natCharsWithPoint_pos N K h]
    simp only [parseDecimal]
    rw [@takeWhile_append_stop Char.isDigit (natChars (N / 10 ^ K)) (fracChars K (N % 10 ^ K)) '.'
        (natChars_all_digit (N / 10 ^ K)) (by decide),
      @dropWhile_append_stop Char.isDigit (natChars (N / 10 ^ K)) (fracChars K (N % 10 ^ K)) '.'
        (natChars_all_digit (N / 10 ^ K)) (by decide)]
    rw [if_neg (by simp), List.head?_cons, if_pos rfl, List.tail_cons]
    rw [takeWhile_all (fracChars_all_digit K (N % 10 ^ K)),
      dropWhile_all (fracChars_all_digit K (N % 10 ^ K))]
    rw [if_pos ⟨rfl, Or.inl (natChars_ne_nil (N / 10 ^ K))⟩]
    rw [digitsValNat_natChars, fracChars_length,
      digitsValNat_fracChars K (N % 10 ^ K) (Nat.mod_lt N (by positivity))]
    congr 1
    have h10 : ((10 : ℚ)) ^ K ≠ 0 := by positivity
    have hdm : 10 ^ K * (N / 10 ^ K) + N % 10 ^ K = N := Nat.div_add_mod N (10 ^ K)
    field_simp
    have hq := congrArg (fun x : Nat => (x : ℚ)) hdm
    push_cast at hq
    linarith [hq]

/-! ### Terminating decimal denominators -/

theorem fsplit_mul (p : Nat) : ∀ fuel n, n ≤ fuel → (fsplit p fuel n).2 * p ^ (fsplit p fuel n).1 = n := by
  intro fuel
  induction fuel with
  | zero =>
    intro n hn
    have : n = 0 := Nat.le_zero.mp hn
    subst this
    simp [fsplit]
  | succ fuel ih =>
    intro n hn
    rw [fsplit]
    by_cases hc : 2 ≤ p ∧ n ≠ 0 ∧ n % p = 0
    · rw [if_pos hc]
      rcases hc with ⟨hp, hn0, hmod⟩
      have hdvd : p ∣ n := Nat.dvd_of_mod_eq_zero hmod
      have hlt : n / p < n := Nat.div_lt_self (Nat.pos_of_ne_zero hn0) hp
      have hle : n / p ≤ fuel := by omega
      have := ih (n / p) hle
      simp only [pow_succ]
      calc (fsplit p fuel (n / p)).2 * (p ^ (fsplit p fuel (n / p)).1 * p)
          = ((fsplit p fuel (n / p)).2 * p ^ (fsplit p fuel (n / p)).1) * p := by ring
        _ = (n / p) * p := by rw [this]
        _ = n := Nat.div_mul_cancel hdvd
    · rw [if_neg hc]; simp

theorem fsplit_not_dvd (p : Nat) : ∀ fuel n, n ≤ fuel → n ≠ 0 → 2 ≤ p → ¬ p ∣ (fsplit p fuel n).2 := by
  intro fuel
  induction fuel with
  | zero => intro n hn hn0 _; omega
  | succ fuel ih =>
    intro n hn hn0 hp
    rw [fsplit]
    by_cases hc : 2 ≤ p ∧ n ≠ 0 ∧ n % p = 0
    · rw [if_pos hc]
      have hdvd : p ∣ n := Nat.dvd_of_mod_eq_zero hc.2.2
      have hple : p ≤ n := Nat.le_of_dvd (Nat.pos_of_ne_zero hn0) hdvd
      have hq0 : n / p ≠ 0 := by
        have := Nat.div_pos hple (by omega)
        omega
      have hlt : n / p < n := Nat.div_lt_self (Nat.pos_of_ne_zero hn0) hp
      exact ih (n / p) (by omega) hq0 hp
    · rw [if_neg hc]
      intro hcon
      obtain ⟨c, rfl⟩ := hcon
      exact hc ⟨hp, hn0, Nat.mul_mod_right p c⟩

theorem pStrip_mul (p n : Nat) : pStrip p n * p ^ pExp p n = n :=
  fsplit_mul p n n (le_refl n)

theorem pStrip_not_dvd (p n : Nat) (hn : n ≠ 0) (hp : 2 ≤ p) : ¬ p ∣ pStrip p n :=
  fsplit_not_dvd p n n (le_refl n) hn hp

theorem pStrip_ne_zero (p n : Nat) (hn : n ≠ 0) : pStrip p n ≠ 0 := by
  intro h
  have := pStrip_mul p n
  rw [h] at this
  simp at this
  exact hn this.symm

theorem den_dvd_of_terminating (d : Nat) (h : denTerminating d = true) :
    d ∣ 10 ^ decExpDen d := by
  unfold denTerminating at h
  have hr : pStrip 5 (pStrip 2 d) = 1 := by simpa using h
  have h2 : pStrip 2 d * 2 ^ pExp 2 d = d := pStrip_mul 2 d
  have h5 : pStrip 5 (pStrip 2 d) * 5 ^ pExp 5 (pStrip 2 d) = pStrip 2 d := pStrip_mul 5 (pStrip 2 d)
  rw [hr, one_mul] at h5
  set a := pExp 2 d
  set b := pExp 5 (pStrip 2 d)
  have hd : d = 2 ^ a * 5 ^ b := by rw [← h2, ← h5]; ring
  have hK : decExpDen d = max a b := rfl
  rw [hK, hd, show (10 : Nat) = 2 * 5 from rfl, mul_pow]
  exact mul_dvd_mul (pow_dvd_pow 2 (le_max_left a b)) (pow_dvd_pow 5 (le_max_right a b))

theorem terminating_of_dvd (d k : Nat) (hd : d ≠ 0) (h : d ∣ 10 ^ k) :
    denTerminating d = true := by
  unfold denTerminating
  set m := pStrip 2 d with hm
  set r := pStrip 5 m with hrdef
  have h2 : m * 2 ^ pExp 2 d = d := pStrip_mul 2 d
  have hm0 : m ≠ 0 := pStrip_ne_zero 2 d hd
  have h5 : r * 5 ^ pExp 5 m = m := pStrip_mul 5 m
  have hr0 : r ≠ 0 := pStrip_ne_zero 5 m hm0
  have hnd2m : ¬ 2 ∣ m := pStrip_not_dvd 2 d hd (by omega)
  have hnd5r : ¬ 5 ∣ r := pStrip_not_dvd 5 m hm0 (by omega)
  have hrm : r ∣ m := Dvd.intro _ h5
  have hnd2r : ¬ 2 ∣ r := fun hx => hnd2m (hx.trans hrm)
  have hrd : r ∣ d := hrm.trans (Dvd.intro _ h2)
  have hrpow : r ∣ 10 ^ k := hrd.trans h
  have hc2 : Nat.Coprime r 2 := ((Nat.Prime.coprime_iff_not_dvd Nat.prime_two).mpr hnd2r).symm
  have hc5 : Nat.Coprime r 5 := ((Nat.Prime.coprime_iff_not_dvd Nat.prime_five).mpr hnd5r).symm
  have hc10 : Nat.Coprime r (10 ^ k) := by
    rw [show (10 : Nat) = 2 * 5 from rfl, mul_pow]
    exact Nat.Coprime.mul_right (hc2.pow_right k) (hc5.pow_right k)
  have hr1 : r = 1 := Nat.dvd_one.mp (hc10 ▸ Nat.dvd_gcd dvd_rfl hrpow)
  simp [hr1]

theorem isDigit_facts (c : Char) (h : c.isDigit = true) :
    c.isWhitespace = false ∧ c ≠ '+' ∧ c ≠ '-' ∧ c ≠ 'g' ∧ c ≠ 'I' ∧ c ≠ '.' := by
  refine ⟨?_, ?_, ?_, ?_, ?_, ?_⟩
  · by_contra hw
    simp only [Bool.not_eq_false] at hw
    simp only [Char.isWhitespace, Bool.or_eq_true, decide_eq_true_eq] at hw
    rcases hw with ((hx | hx) | hx) | hx <;> subst hx <;> simp [Char.isDigit] at h
  all_goals intro hx; subst hx; simp [Char.isDigit] at h

theorem natCharsWithPoint_not_ws (N K : Nat) :
    ∀ c ∈ natCharsWithPoint N K, c.isWhitespace = false := by
  intro c hc
  rcases natCharsWithPoint_all N K c hc with hd | hd
  · exact (isDigit_facts c hd).1
  · subst hd; rfl

theorem ratN_div (q : ℚ) (h : denTerminating q.den = true) :
    ((q.num.natAbs * (10 ^ decExpDen q.den / q.den) : ℕ) : ℚ) / 10 ^ decExpDen q.den = |q| := by
  set K := decExpDen q.den with hK
  have hdvd : q.den ∣ 10 ^ K := den_dvd_of_terminating q.den h
  have hc : 10 ^ K / q.den * q.den = 10 ^ K := Nat.div_mul_cancel hdvd
  have hcQ : ((10 ^ K / q.den : ℕ) : ℚ) * (q.den : ℚ) = (10 : ℚ) ^ K := by
    exact_mod_cast congrArg (fun x : ℕ => (x : ℚ)) hc
  have hden0 : (q.den : ℚ) ≠ 0 := by positivity
  have hc0 : ((10 ^ K / q.den : ℕ) : ℚ) ≠ 0 := by
    intro hx
    rw [hx, zero_mul] at hcQ
    exact absurd hcQ.symm (by positivity)
  have habs : |q| = |(q.num : ℚ)| / (q.den : ℚ) := by
    rw [← Rat.num_div_den q, abs_div, abs_of_pos (by positivity : (0:ℚ) < q.den)]
    rw [Rat.num_div_den]
  have hNcast : ((q.num.natAbs * (10 ^ K / q.den) : ℕ) : ℚ)
      = |(q.num : ℚ)| * ((10 ^ K / q.den : ℕ) : ℚ) := by
    push_cast [Int.cast_natAbs]
    ring
  rw [hNcast, habs, ← hcQ]
  field_simp
  ring

theorem str_empty_append (s : String) : "" ++ s = s := rfl

theorem ratDecStr_eq (q : ℚ) (h : denTerminating q.den = true) :
    ratDecStr q = (if q.num < 0 then "-" else "")
      ++ String.mk (natCharsWithPoint (q.num.natAbs * (10 ^ decExpDen q.den / q.den)) (decExpDen q.den)) := by
  unfold ratDecStr
  rw [if_pos h]

theorem jsStringToNumber_mkPoint (N K : Nat) :
    jsStringToNumber (String.mk (natCharsWithPoint N K)) = .finite ((N : ℚ) / 10 ^ K) := by
  obtain ⟨c, t, hct, hcd⟩ := natCharsWithPoint_head N K
  have hf := isDigit_facts c hcd
  have htl : (String.mk (natCharsWithPoint N K)).toList = natCharsWithPoint N K := rfl
  have htrim : trimChars (natCharsWithPoint N K) = natCharsWithPoint N K :=
    trimChars_eq (natCharsWithPoint_not_ws N K)
  have hInf : "Infinity".toList = 'I' :: "nfinity".toList := rfl
  have hpInf : "+Infinity".toList = '+' :: "Infinity".toList := rfl
  have hmInf : "-Infinity".toList = '-' :: "Infinity".toList := rfl
  simp only [jsStringToNumber, htl, htrim]
  rw [if_neg (by rw [hct]; exact List.cons_ne_nil c t)]
  rw [if_neg ?hinfs, if_neg ?hminf, if_neg ?hplus, if_neg ?hminus]
  case hinfs =>
    rintro (hx | hx)
    · rw [hct, hInf] at hx
      injection hx with h1 _
      exact hf.2.2.2.2.1 h1
    · rw [hct, hpInf] at hx
      injection hx with h1 _
      exact hf.2.1 h1
  case hminf =>
    intro hx
    rw [hct, hmInf] at hx
    injection hx with h1 _
    exact hf.2.2.1 h1
  case hplus =>
    intro hx
    rw [hct, List.head?_cons] at hx
    injection hx with h1
    exact hf.2.1 h1
  case hminus =>
    intro hx
    rw [hct, List.head?_cons] at hx
    injection hx with h1
    exact hf.2.2.1 h1
  exact parseDecimal_natCharsWithPoint N K

theorem jsStringToNumber_negMkPoint (N K : Nat) :
    jsStringToNumber ("-" ++ String.mk (natCharsWithPoint N K)) = .finite (-((N : ℚ) / 10 ^ K)) := by
  obtain ⟨c, t, hct, hcd⟩ := natCharsWithPoint_head N K
  have hf := isDigit_facts c hcd
  have htl : ("-" ++ String.mk (natCharsWithPoint N K)).toList = '-' :: natCharsWithPoint N K := rfl
  have htrim : trimChars ('-' :: natCharsWithPoint N K) = '-' :: natCharsWithPoint N K := by
    refine trimChars_eq ?_
    intro x hx
    rcases List.mem_cons.mp hx with hx | hx
    · subst hx; rfl
    · exact natCharsWithPoint_not_ws N K x hx
  have hInf : "Infinity".toList = 'I' :: "nfinity".toList := rfl
  have hpInf : "+Infinity".toList = '+' :: "Infinity".toList := rfl
  have hmInf : "-Infinity".toList = '-' :: "Infinity".toList := rfl
  simp only [jsStringToNumber, htl, htrim]
  rw [if_neg (List.cons_ne_nil '-' _)]
  rw [if_neg ?hinfs, if_neg ?hminf, if_neg ?hplus, if_pos ?hminus]
  case hinfs =>
    rintro (hx | hx)
    · rw [hInf] at hx
      injection hx with h1 _
      exact absurd h1 (by decide)
    · rw [hpInf] at hx
      injection hx with h1 _
      exact absurd h1 (by decide)
  case hminf =>
    intro hx
    rw [hmInf] at hx
    injection hx with _ h2
    rw [hct, hInf] at h2
    injection h2 with h1 _
    exact hf.2.2.2.2.1 h1
  case hplus =>
    intro hx
    rw [List.head?_cons] at hx
    injection hx with h1
    exact absurd h1 (by decide)
  case hminus => rw [List.head?_cons]
  rw [List.tail_cons, parseDecimal_natCharsWithPoint N K]
  rfl

theorem jsStringToNumber_ratDecStr (q : ℚ) (h : denTerminating q.den = true) :
    jsStringToNumber (ratDecStr q) = .finite q := by
  rw [ratDecStr_eq q h]
  by_cases hsgn : q.num < 0
  · rw [if_pos hsgn, jsStringToNumber_negMkPoint, ratN_div q h,
      abs_of_neg (Rat.num_neg.mp hsgn), neg_neg]
  · rw [if_neg hsgn, str_empty_append, jsStringToNumber_mkPoint, ratN_div q h,
      abs_of_nonneg (Rat.num_nonneg.mp (le_of_not_lt hsgn))]

/-! ### Facts about the identifier normalizer -/

theorem isPrefixOf_cons_cons (a b : Char) (as bs : List Char) :
    (a :: as).isPrefixOf (b :: bs) = (a == b && as.isPrefixOf bs) := rfl

theorem jsStartsWith_append (p x : String) : jsStartsWith (p ++ x) p = true := by
  unfold jsStartsWith
  rw [show (p ++ x).toList = p.toList ++ x.toList from rfl, List.isPrefixOf_iff_prefix]
  exact List.prefix_append _ _

theorem ratDecStr_not_gid (q : ℚ) :
    jsStartsWith (ratDecStr q) ("gid://shopify/Product/") = false := by
  by_cases h : denTerminating q.den = true
  · rw [ratDecStr_eq q h]
    by_cases hsgn : q.num < 0
    · rw [if_pos hsgn]
      rfl
    · rw [if_neg hsgn, str_empty_append]
      obtain ⟨c, t, hct, hcd⟩ :=
        natCharsWithPoint_head (q.num.natAbs * (10 ^ decExpDen q.den / q.den)) (decExpDen q.den)
      have hf := isDigit_facts c hcd
      have htl : (String.mk (natCharsWithPoint (q.num.natAbs * (10 ^ decExpDen q.den / q.den))
          (decExpDen q.den))).toList = c :: t := hct
      unfold jsStartsWith
      rw [htl, show ("gid://shopify/Product/").toList = 'g' :: ("id://shopify/Product/").toList from rfl,
        isPrefixOf_cons_cons]
      have hgc : ('g' == c) = false := beq_eq_false_iff_ne.mpr (fun he => hf.2.2.2.1 he.symm)
      rw [hgc, Bool.false_and]
  · unfold ratDecStr
    rw [if_neg h]
    rfl

theorem div_pow10_den_dvd (m : ℤ) (k : ℕ) : ((m : ℚ) / 10 ^ k).den ∣ 10 ^ k := by
  have h := Rat.den_dvd m ((10 : ℤ) ^ k)
  rw [Rat.divInt_eq_div] at h
  have hcast : (((10 : ℤ) ^ k : ℤ) : ℚ) = (10 : ℚ) ^ k := by push_cast; ring
  rw [hcast] at h
  exact_mod_cast h

theorem denTerminating_div_pow10 (m : ℤ) (k : ℕ) :
    denTerminating ((m : ℚ) / 10 ^ k).den = true :=
  terminating_of_dvd _ k (Rat.den_nz _) (div_pow10_den_dvd m k)

theorem toProductGid_finite_pos (q : ℚ) (hterm : denTerminating q.den = true) (hq : 0 < q) :
    toProductGid (.num (.finite q)) = some ("gid://shopify/Product/" ++ jsNumToString (.finite q)) := by
  simp only [toProductGid, jsToString, jsNumToString]
  rw [ratDecStr_not_gid q]
  simp only [Bool.false_eq_true, if_false]
  rw [jsStringToNumber_ratDecStr q hterm]
  show (if 0 < q then some ("gid://shopify/Product/" ++ ratDecStr q) else none)
    = some ("gid://shopify/Product/" ++ ratDecStr q)
  rw [if_pos hq]

theorem toProductGid_finite_nonpos (q : ℚ) (hterm : denTerminating q.den = true) (hq : q ≤ 0) :
    toProductGid (.num (.finite q)) = none := by
  simp only [toProductGid, jsToString, jsNumToString]
  rw [ratDecStr_not_gid q]
  simp only [Bool.false_eq_true, if_false]
  rw [jsStringToNumber_ratDecStr q hterm]
  show (if 0 < q then some ("gid://shopify/Product/" ++ ratDecStr q) else none) = none
  rw [if_neg (not_lt.mpr hq)]

theorem toProductGid_of_startsWith (s : String)
    (h : jsStartsWith s ("gid://shopify/Product/") = true) :
    toProductGid (.str s) = some s := by
  simp only [toProductGid, jsToString]
  rw [if_pos h]

theorem isCanonicalRef_startsWith (s : String) (h : isCanonicalRef s = true) :
    jsStartsWith s ("gid://shopify/Product/") = true := by
  unfold isCanonicalRef at h
  rw [Bool.and_eq_true] at h
  exact h.1

theorem toProductGid_nan_str (s : String) (h1 : jsStringToNumber s = .nan)
    (h2 : jsStartsWith s ("gid://shopify/Product/") = false) :
    toProductGid (.str s) = none := by
  simp only [toProductGid, jsToString]
  rw [h2]
  simp only [Bool.false_eq_true, if_false]
  rw [h1]

theorem toProductGid_shape (v : JSValue) (s : String) (h : toProductGid v = some s) :
    (s = jsToString v ∧ jsStartsWith s ("gid://shopify/Product/") = true) ∨
    (∃ q : ℚ, jsStringToNumber (jsToString v) = .finite q ∧ 0 < q ∧
      s = "gid://shopify/Product/" ++ jsNumToString (.finite q)) := by
  simp only [toProductGid] at h
  by_cases hpre : jsStartsWith (jsToString v) ("gid://shopify/Product/") = true
  · rw [if_pos hpre] at h
    injection h with h
    exact Or.inl ⟨h.symm, h ▸ hpre⟩
  · rw [if_neg hpre] at h
    cases hn : jsStringToNumber (jsToString v) with
    | finite q =>
      rw [hn] at h
      replace h : (if 0 < q then some ("gid://shopify/Product/" ++ jsNumToString (.finite q))
          else none) = some s := h
      by_cases hq : 0 < q
      · rw [if_pos hq] at h
        injection h with h
        exact Or.inr ⟨q, rfl, hq, h.symm⟩
      · rw [if_neg hq] at h
        exact absurd h (by simp)
    | nan => rw [hn] at h; exact absurd h (by simp)
    | inf => rw [hn] at h; exact absurd h (by simp)
    | negInf => rw [hn] at h; exact absurd h (by simp)

/-! ### Handler-level correspondence lemmas -/

theorem classifyRemote_spec (remote : RemoteOutcome) (rt : String) :
    classifyRemote remote rt = directiveOf (remoteOutcomeOf remote) rt := by
  unfold classifyRemote remoteOutcomeOf
  cases remote with
  | throws => rfl
  | body raw =>
    cases hp : jsonParse raw with
    | none => simp [hp, directiveOf]
    | some j =>
      by_cases h : jTruthy (jLen (jsonNullish (userErrorsOf j) (Json.arr []))) = true
      · simp [hp, h, directiveOf]
      · simp [hp, h, directiveOf]

theorem apiSubmit_spec (sub : SubReq) (env : Env) (remote : RemoteOutcome) (now : String) :
    (apiSubmit sub env remote now).directive
      = directiveOf (specOutcomeApi sub env remote) (resolveReturnTo sub) := by
  unfold apiSubmit specOutcomeApi
  by_cases h1 : resolveShop sub = ""
  · simp [h1, directiveOf]
  · by_cases h2 : devGateBlocked env (resolveShop sub) = true
    · simp [h1, h2, directiveOf]
    · cases hg : toProductGid (jsNullish sub.product_id sub.productId) with
      | none => simp [h1, h2, hg, directiveOf]
      | some g =>
        by_cases h3 : ratingRejected sub.rating = true
        · simp [h1, h2, hg, h3, directiveOf]
        · simp [h1, h2, hg, h3, classifyRemote_spec]

theorem webSubmit_spec (sub : SubReq) (store : String → SessionLookup) (remote : RemoteOutcome) (now : String) :
    (webSubmit sub store remote now).directive
      = directiveOf (specOutcomeWeb sub store remote) (resolveReturnTo sub) := by
  unfold webSubmit specOutcomeWeb
  by_cases h1 : resolveShop sub = ""
  · simp [h1, directiveOf]
  · cases hg : toProductGid (jsNullish sub.product_id sub.productId) with
    | none => simp [h1, hg, directiveOf]
    | some g =>
      by_cases h3 : ratingRejected sub.rating = true
      · simp [h1, hg, h3, directiveOf]
      · cases hs : store (resolveShop sub) with
        | crash => simp [h1, hg, h3, hs, directiveOf]
        | res tok =>
          by_cases h4 : tok.getD ("") = ""
          · simp [h1, hg, h3, hs, h4, directiveOf]
          · simp [h1, hg, h3, hs, h4, classifyRemote_spec]

theorem apiSubmit_missingShop (sub : SubReq) (env : Env) (remote : RemoteOutcome) (now : String)
    (h1 : resolveShop sub = "") :
    apiSubmit sub env remote now
      = ⟨directiveOf .missingTenant (resolveReturnTo sub), false, false, none⟩ := by
  unfold apiSubmit
  simp [h1, directiveOf]

theorem apiSubmit_unauthorized (sub : SubReq) (env : Env) (remote : RemoteOutcome) (now : String)
    (h1 : resolveShop sub ≠ "") (h2 : devGateBlocked env (resolveShop sub) = true) :
    apiSubmit sub env remote now
      = ⟨directiveOf .unauthorized (resolveReturnTo sub), true, false, none⟩ := by
  unfold apiSubmit
  simp [h1, h2, directiveOf]

theorem apiSubmit_invalidProduct (sub : SubReq) (env : Env) (remote : RemoteOutcome) (now : String)
    (h1 : resolveShop sub ≠ "") (h2 : devGateBlocked env (resolveShop sub) = false)
    (hg : toProductGid (jsNullish sub.product_id sub.productId) = none) :
    apiSubmit sub env remote now
      = ⟨directiveOf .invalidProductReference (resolveReturnTo sub), true, false, none⟩ := by
  unfold apiSubmit
  simp [h1, h2, hg, directiveOf]

theorem apiSubmit_invalidRating (sub : SubReq) (env : Env) (remote : RemoteOutcome) (now : String)
    (g : String) (h1 : resolveShop sub ≠ "") (h2 : devGateBlocked env (resolveShop sub) = false)
    (hg : toProductGid (jsNullish sub.product_id sub.productId) = some g)
    (hr : ratingRejected sub.rating = true) :
    apiSubmit sub env remote now
      = ⟨directiveOf .invalidRating (resolveReturnTo sub), true, false, none⟩ := by
  unfold apiSubmit
  simp [h1, h2, hg, hr, directiveOf]

theorem apiSubmit_remote (sub : SubReq) (env : Env) (remote : RemoteOutcome) (now : String)
    (g : String) (h1 : resolveShop sub ≠ "") (h2 : devGateBlocked env (resolveShop sub) = false)
    (hg : toProductGid (jsNullish sub.product_id sub.productId) = some g)
    (hr : ratingRejected sub.rating = false) :
    apiSubmit sub env remote now
      = ⟨classifyRemote remote (resolveReturnTo sub), true, true,
          some (mkFields g (jsNumToString (jsToNumber sub.rating)) (strField sub.title)
            (strField sub.body) (strField sub.author) (strField sub.email) now)⟩ := by
  unfold apiSubmit
  simp [h1, h2, hg, hr]

theorem webSubmit_missingShop (sub : SubReq) (store : String → SessionLookup)
    (remote : RemoteOutcome) (now : String) (h1 : resolveShop sub = "") :
    webSubmit sub store remote now
      = ⟨directiveOf .missingTenant (resolveReturnTo sub), false, false, none⟩ := by
  unfold webSubmit
  simp [h1, directiveOf]

theorem webSubmit_invalidProduct (sub : SubReq) (store : String → SessionLookup)
    (remote : RemoteOutcome) (now : String) (h1 : resolveShop sub ≠ "")
    (hg : toProductGid (jsNullish sub.product_id sub.productId) = none) :
    webSubmit sub store remote now
      = ⟨directiveOf .invalidProductReference (resolveReturnTo sub), false, false, none⟩ := by
  unfold webSubmit
  simp [h1, hg, directiveOf]

theorem webSubmit_invalidRating (sub : SubReq) (store : String → SessionLookup)
    (remote : RemoteOutcome) (now : String) (g : String) (h1 : resolveShop sub ≠ "")
    (hg : toProductGid (jsNullish sub.product_id sub.productId) = some g)
    (hr : ratingRejected sub.rating = true) :
    webSubmit sub store remote now
      = ⟨directiveOf .invalidRating (resolveReturnTo sub), false, false, none⟩ := by
  unfold webSubmit
  simp [h1, hg, hr, directiveOf]

theorem webSubmit_crash (sub : SubReq) (store : String → SessionLookup)
    (remote : RemoteOutcome) (now : String) (g : String) (h1 : resolveShop sub ≠ "")
    (hg : toProductGid (jsNullish sub.product_id sub.productId) = some g)
    (hr : ratingRejected sub.rating = false) (hs : store (resolveShop sub) = .crash) :
    webSubmit sub store remote now
      = ⟨directiveOf .transportError (resolveReturnTo sub), true, false, none⟩ := by
  unfold webSubmit
  simp [h1, hg, hr, hs, directiveOf]

theorem webSubmit_unauthorized (sub : SubReq) (store : String → SessionLookup)
    (remote : RemoteOutcome) (now : String) (g : String) (tok : Option String)
    (h1 : resolveShop sub ≠ "")
    (hg : toProductGid (jsNullish sub.product_id sub.productId) = some g)
    (hr : ratingRejected sub.rating = false) (hs : store (resolveShop sub) = .res tok)
    (ht : tok.getD ("") = "") :
    webSubmit sub store remote now
      = ⟨directiveOf .unauthorized (resolveReturnTo sub), true, false, none⟩ := by
  unfold webSubmit
  simp [h1, hg, hr, hs, ht, directiveOf]

theorem webSubmit_remote (sub : SubReq) (store : String → SessionLookup)
    (remote : RemoteOutcome) (now : String) (g : String) (tok : Option String)
    (h1 : resolveShop sub ≠ "")
    (hg : toProductGid (jsNullish sub.product_id sub.productId) = some g)
    (hr : ratingRejected sub.rating = false) (hs : store (resolveShop sub) = .res tok)
    (ht : tok.getD ("") ≠ "") :
    webSubmit sub store remote now
      = ⟨classifyRemote remote (resolveReturnTo sub), true, true,
          some (mkFields g (jsNumToString (jsToNumber sub.rating)) (strField sub.title)
            (strField sub.body) (strField sub.author) (strField sub.email) now)⟩ := by
  unfold webSubmit
  simp [h1, hg, hr, hs, ht]

theorem webSubmit_nocred_no_remote (sub : SubReq) (store : String → SessionLookup)
    (remote : RemoteOutcome) (now : String)
    (hs : store (resolveShop sub) = .res none) :
    (webSubmit sub store remote now).calledRemote = false := by
  unfold webSubmit
  by_cases h1 : resolveShop sub = ""
  · simp [h1]
  · cases hg : toProductGid (jsNullish sub.product_id sub.productId) with
    | none => simp [h1, hg]
    | some g =>
      by_cases hr : ratingRejected sub.rating = true
      · simp [h1, hg, hr]
      · simp [h1, hg, hr, hs]

/-! ### Claim theorems -/

theorem bool_not_true {b : Bool} (h : ¬ b = true) : b = false := by
  cases b
  · rfl
  · exact absurd rfl h

/-- C8: the Outcome Reporter mapping is total, pure and deterministic —
each of the seven failure kinds and the success case maps to exactly one
literal rendering directive (ok flag, return target, optional id, optional
message), and re-running the mapping (and the HTML rendering behind it) on
the same outcome and return target yields identical output. -/
theorem C8_outcome_reporter_total_pure :
    (∀ rt : String,
      directiveOf .missingTenant rt = ⟨false, rt, none, some ("Missing shop")⟩ ∧
      directiveOf .invalidProductReference rt = ⟨false, rt, none, some ("Invalid product id")⟩ ∧
      directiveOf .invalidRating rt = ⟨false, rt, none, some ("Rating must be 1..5")⟩ ∧
      directiveOf .unauthorized rt = ⟨false, rt, none, some ("App not authorized for this shop")⟩ ∧
      directiveOf .remoteValidationError rt = ⟨false, rt, none, some ("Validation error")⟩ ∧
      directiveOf .remoteUnparseable rt = ⟨false, rt, none, some ("API returned non-JSON")⟩ ∧
      directiveOf .transportError rt = ⟨false, rt, none, some ("Server error")⟩ ∧
      ∀ idj : Option Json, directiveOf (.success idj) rt = ⟨true, rt, idj, none⟩) ∧
    (∀ (o : Outcome) (rt : String),
      directiveOf o rt = directiveOf o rt ∧
      apiSendHtml (directiveOf o rt) = apiSendHtml (directiveOf o rt) ∧
      webSendHtml (directiveOf o rt) = webSendHtml (directiveOf o rt)) :=
  ⟨fun _ => ⟨rfl, rfl, rfl, rfl, rfl, rfl, rfl, fun _ => rfl⟩, fun _ _ => ⟨rfl, rfl, rfl⟩⟩

/-- C9 (implicit): every response of the submission endpoint — success and
all failure paths alike — is delivered with HTTP status 200 and an HTML
body; no failure is signalled through a non-200 status. -/
theorem C9_always_http200_html :
    ∀ (sub : SubReq) (env : Env) (store : String → SessionLookup)
      (remote : RemoteOutcome) (now : String),
      (apiRespond sub env remote now).status = 200 ∧
      (apiRespond sub env remote now).contentType = "text/html" ∧
      (webRespond sub store remote now).status = 200 ∧
      (webRespond sub store remote now).contentType = "text/html" :=
  fun _ _ _ _ _ => ⟨rfl, rfl, rfl, rfl⟩

/-- C1: classification of the remote phase — an unparseable body yields
RemoteUnparseable ("API returned non-JSON"); a response whose field-level
error list is nonempty yields RemoteValidationError (the literal message
"Validation error", never the raw remote field/message pairs); otherwise
Success carrying the extracted entity id; a network-level exception yields
TransportError; and whenever either handler issues the remote call, its
directive is exactly this classification. -/
theorem C1_remote_classification :
    (∀ rt : String, classifyRemote .throws rt = directiveOf .transportError rt) ∧
    (∀ (rt raw : String), jsonParse raw = none →
      classifyRemote (.body raw) rt = directiveOf .remoteUnparseable rt ∧
      directiveOf .remoteUnparseable rt = ⟨false, rt, none, some ("API returned non-JSON")⟩) ∧
    (∀ (rt raw : String) (j : Json) (l : List Json), jsonParse raw = some j →
      userErrorsOf j = some (.arr l) → l ≠ [] →
      classifyRemote (.body raw) rt = directiveOf .remoteValidationError rt ∧
      directiveOf .remoteValidationError rt = ⟨false, rt, none, some ("Validation error")⟩) ∧
    (∀ (rt raw : String) (j : Json), jsonParse raw = some j →
      (userErrorsOf j = none ∨ userErrorsOf j = some .null ∨ userErrorsOf j = some (.arr [])) →
      classifyRemote (.body raw) rt = directiveOf (.success (idOf j)) rt) ∧
    (∀ (sub : SubReq) (env : Env) (remote : RemoteOutcome) (now : String),
      (apiSubmit sub env remote now).calledRemote = true →
      (apiSubmit sub env remote now).directive = classifyRemote remote (resolveReturnTo sub)) ∧
    (∀ (sub : SubReq) (store : String → SessionLookup) (remote : RemoteOutcome) (now : String),
      (webSubmit sub store remote now).calledRemote = true →
      (webSubmit sub store remote now).directive = classifyRemote remote (resolveReturnTo sub)) := by
  refine ⟨fun rt => rfl, ?_, ?_, ?_, ?_, ?_⟩
  · intro rt raw hp
    refine ⟨?_, rfl⟩
    simp [classifyRemote, hp, directiveOf]
  · intro rt raw j l hp hu hl
    refine ⟨?_, rfl⟩
    have hlen : ((l.length : ℚ)) ≠ 0 := by
      have : l.length ≠ 0 := fun hx => hl (List.length_eq_zero.mp hx)
      exact_mod_cast this
    simp [classifyRemote, hp, hu, jsonNullish, jLen, jTruthy, hlen, directiveOf]
  · intro rt raw j hp hu
    rcases hu with hu | hu | hu <;>
      simp [classifyRemote, hp, hu, jsonNullish, jLen, jTruthy, directiveOf]
  · intro sub env remote now h
    by_cases h1 : resolveShop sub = ""
    · rw [apiSubmit_missingShop sub env remote now h1] at h
      exact absurd h (by simp)
    · by_cases h2 : devGateBlocked env (resolveShop sub) = true
      · rw [apiSubmit_unauthorized sub env remote now h1 h2] at h
        exact absurd h (by simp)
      · cases hg : toProductGid (jsNullish sub.product_id sub.productId) with
        | none =>
          rw [apiSubmit_invalidProduct sub env remote now h1 (bool_not_true h2) hg] at h
          exact absurd h (by simp)
        | some g =>
          by_cases hr : ratingRejected sub.rating = true
          · rw [apiSubmit_invalidRating sub env remote now g h1 (bool_not_true h2) hg hr] at h
            exact absurd h (by simp)
          · rw [apiSubmit_remote sub env remote now g h1 (bool_not_true h2) hg (bool_not_true hr)]
  · intro sub store remote now h
    by_cases h1 : resolveShop sub = ""
    · rw [webSubmit_missingShop sub store remote now h1] at h
      exact absurd h (by simp)
    · cases hg : toProductGid (jsNullish sub.product_id sub.productId) with
      | none =>
        rw [webSubmit_invalidProduct sub store remote now h1 hg] at h
        exact absurd h (by simp)
      | some g =>
        by_cases hr : ratingRejected sub.rating = true
        · rw [webSubmit_invalidRating sub store remote now g h1 hg hr] at h
          exact absurd h (by simp)
        · cases hs : store (resolveShop sub) with
          | crash =>
            rw [webSubmit_crash sub store remote now g h1 hg (bool_not_true hr) hs] at h
            exact absurd h (by simp)
          | res tok =>
            by_cases ht : tok.getD ("") = ""
            · rw [webSubmit_unauthorized sub store remote now g tok h1 hg (bool_not_true hr) hs ht] at h
              exact absurd h (by simp)
            · rw [webSubmit_remote sub store remote now g tok h1 hg (bool_not_true hr) hs ht]

/-- Concrete valid submission used for instantiating theorems
(end-to-end scenario A of the specification). -/
def subOK : SubReq :=
  { queryShop := some "shop.example"
    headerShop := none
    product_id := .str "42"
    productId := .undef
    rating := .str "5"
    title := .str "Great"
    body := .str "Loved it"
    author := .str "Ann"
    email := .str "a@example.com"
    bodyReturnTo := some "/products/classic"
    queryReturnTo := none }

/-- Environment whose dev credential matches `subOK`'s tenant. -/
def envOK : Env := { devShop := some "shop.example", devToken := some "tok" }

/-- Environment whose dev credential names a different tenant. -/
def envOther : Env := { devShop := some "dev.example", devToken := some "tok" }

/-- Credential store holding an offline token for every tenant. -/
def storeOK : String → SessionLookup := fun _ => .res (some "offline-token")

/-- Credential store holding no session for any tenant. -/
def storeEmpty : String → SessionLookup := fun _ => .res none

/-- Remote body of end-to-end scenario A (created id, empty error list). -/
def rawOkBody : String :=
  "\x7b\"data\":\x7b\"metaobjectCreate\":\x7b\"metaobject\":\x7b\"id\":\"gid://x/Metaobject/1\"\x7d,\"userErrors\":[]\x7d\x7d\x7d"

/-- Parse tree of `rawOkBody`. -/
def okJson : Json :=
  Json.obj [("data", Json.obj [("metaobjectCreate", Json.obj
    [("metaobject", Json.obj [("id", Json.str "gid://x/Metaobject/1")]),
     ("userErrors", Json.arr [])])])]

/-- Remote body of end-to-end scenario E (one field-level error). -/
def rawErrBody : String :=
  "\x7b\"data\":\x7b\"metaobjectCreate\":\x7b\"userErrors\":[\x7b\"field\":\"rating\",\"message\":\"bad\"\x7d]\x7d\x7d\x7d"

/-- Parse tree of `rawErrBody`. -/
def errJson : Json :=
  Json.obj [("data", Json.obj [("metaobjectCreate", Json.obj
    [("userErrors", Json.arr [Json.obj [("field", Json.str "rating"), ("message", Json.str "bad")]])])])]

/-- Remote body of end-to-end scenario D (not JSON). -/
def rawNonJson : String := "ok from upstream"

theorem C1_remote_classification_witness :
    classifyRemote (.body rawErrBody) ("/p") = directiveOf .remoteValidationError ("/p") ∧
    classifyRemote (.body rawNonJson) ("/p") = directiveOf .remoteUnparseable ("/p") ∧
    classifyRemote (.body rawOkBody) ("/p") = directiveOf (.success (idOf okJson)) ("/p") ∧
    (apiSubmit subOK envOK (.body rawOkBody) "2026-01-01T00:00:00.000Z").directive
      = classifyRemote (.body rawOkBody) (resolveReturnTo subOK) :=
  ⟨(C1_remote_classification.2.2.1 ("/p") rawErrBody errJson
      [Json.obj [("field", Json.str "rating"), ("message", Json.str "bad")]]
      (by rfl) (by rfl) (by simp)).1,
   (C1_remote_classification.2.1 ("/p") rawNonJson (by rfl)).1,
   C1_remote_classification.2.2.2.1 ("/p") rawOkBody okJson (by rfl)
     (Or.inr (Or.inr (by rfl))),
   C1_remote_classification.2.2.2.2.1 subOK envOK (.body rawOkBody)
     ("2026-01-01T00:00:00.000Z") (by rfl)⟩

/-- Submission with a present tenant, valid product reference and invalid
rating (used to separate the two handlers' check orders). -/
def subBadRating : SubReq :=
  { queryShop := some "shop.example"
    headerShop := none
    product_id := .str "42"
    productId := .undef
    rating := .str "0"
    title := .str ""
    body := .str ""
    author := .str ""
    email := .str ""
    bodyReturnTo := none
    queryReturnTo := none }

set_option maxRecDepth 40000 in
/-- C2 counterexample: in the Vercel handler the credential gate runs
before rating validation, so a submission with a present tenant, a valid
product reference and an invalid rating but no matching dev credential is
reported as Unauthorized — not as InvalidRating, which the claimed check
order (tenant, product, rating, credential) would require — and the
credential gate has been consulted for a validation-failing submission. -/
theorem C2_check_order_counterexample :
    resolveShop subBadRating ≠ "" ∧
    toProductGid (jsNullish subBadRating.product_id subBadRating.productId)
      = some ("gid://shopify/Product/42") ∧
    ratingRejected subBadRating.rating = true ∧
    (apiSubmit subBadRating envOther (.body rawOkBody) ("T")).directive.message
      = some ("App not authorized for this shop") ∧
    (apiSubmit subBadRating envOther (.body rawOkBody) ("T")).directive.message
      ≠ some ("Rating must be 1..5") ∧
    (apiSubmit subBadRating envOther (.body rawOkBody) ("T")).usedCredential = true := by
  refine ⟨by decide, by with_unfolding_all rfl, by rfl, by rfl, by decide, by rfl⟩

/-- C2 (amended): the web handler checks, in order, missing tenant,
invalid product reference, invalid rating, then missing credential, the
first failing check winning (in particular, missing tenant plus invalid
rating reports MissingTenant); the api handler runs the credential gate
second, before product and rating validation. In both handlers a
submission failing normalization or validation never triggers the remote
call, and in the web handler it never reaches the credential lookup. -/
theorem C2_check_order :
    (∀ (sub : SubReq) (store : String → SessionLookup) (remote : RemoteOutcome) (now : String),
      (webSubmit sub store remote now).directive
        = directiveOf (specOutcomeWeb sub store remote) (resolveReturnTo sub)) ∧
    (∀ (sub : SubReq) (env : Env) (remote : RemoteOutcome) (now : String),
      (apiSubmit sub env remote now).directive
        = directiveOf (specOutcomeApi sub env remote) (resolveReturnTo sub)) ∧
    (∀ (sub : SubReq) (store : String → SessionLookup) (remote : RemoteOutcome) (now : String),
      (resolveShop sub = "" ∨ toProductGid (jsNullish sub.product_id sub.productId) = none
          ∨ ratingRejected sub.rating = true) →
      (webSubmit sub store remote now).usedCredential = false ∧
      (webSubmit sub store remote now).calledRemote = false) ∧
    (∀ (sub : SubReq) (env : Env) (remote : RemoteOutcome) (now : String),
      (resolveShop sub = "" ∨ toProductGid (jsNullish sub.product_id sub.productId) = none
          ∨ ratingRejected sub.rating = true) →
      (apiSubmit sub env remote now).calledRemote = false) := by
  refine ⟨webSubmit_spec, apiSubmit_spec, ?_, ?_⟩
  · intro sub store remote now hfail
    by_cases h1 : resolveShop sub = ""
    · rw [webSubmit_missingShop sub store remote now h1]
      exact ⟨rfl, rfl⟩
    · cases hg : toProductGid (jsNullish sub.product_id sub.productId) with
      | none =>
        rw [webSubmit_invalidProduct sub store remote now h1 hg]
        exact ⟨rfl, rfl⟩
      | some g =>
        have hr : ratingRejected sub.rating = true := by
          rcases hfail with h | h | h
          · exact absurd h h1
          · rw [hg] at h; exact absurd h (by simp)
          · exact h
        rw [webSubmit_invalidRating sub store remote now g h1 hg hr]
        exact ⟨rfl, rfl⟩
  · intro sub env remote now hfail
    by_cases h1 : resolveShop sub = ""
    · rw [apiSubmit_missingShop sub env remote now h1]
    · by_cases h2 : devGateBlocked env (resolveShop sub) = true
      · rw [apiSubmit_unauthorized sub env remote now h1 h2]
      · cases hg : toProductGid (jsNullish sub.product_id sub.productId) with
        | none => rw [apiSubmit_invalidProduct sub env remote now h1 (bool_not_true h2) hg]
        | some g =>
          have hr : ratingRejected sub.rating = true := by
            rcases hfail with h | h | h
            · exact absurd h h1
            · rw [hg] at h; exact absurd h (by simp)
            · exact h
          rw [apiSubmit_invalidRating sub env remote now g h1 (bool_not_true h2) hg hr]

theorem C2_check_order_witness :
    ((webSubmit subBadRating storeOK (.body rawOkBody) ("T")).usedCredential = false ∧
      (webSubmit subBadRating storeOK (.body rawOkBody) ("T")).calledRemote = false) ∧
    (apiSubmit subBadRating envOK (.body rawOkBody) ("T")).calledRemote = false :=
  ⟨C2_check_order.2.2.1 subBadRating storeOK (.body rawOkBody) ("T") (Or.inr (Or.inr (by rfl))),
   C2_check_order.2.2.2 subBadRating envOK (.body rawOkBody) ("T") (Or.inr (Or.inr (by rfl)))⟩

set_option maxRecDepth 100000 in
/-- C3 counterexample: the normalizer's fast path only tests the canonical
prefix, so the non-canonical string "gid://shopify/Product/abc" is a
successful output that does not match the form
gid://(namespace)/Product/(positive integer). -/
theorem C3_canonical_shape_counterexample :
    toProductGid (.str "gid://shopify/Product/abc")
      = some ("gid://shopify/Product/abc") ∧
    isCanonicalRef ("gid://shopify/Product/abc") = false := by
  exact ⟨by with_unfolding_all rfl, by decide⟩

/-- C3 (amended): every successful output of the normalizer starts with
the canonical prefix gid://shopify/Product/, and is either the unchanged
stringified input (which itself starts with that prefix but need not
continue with a positive integer) or the prefix followed by the decimal
rendering of the positive finite number the input parsed to (which need
not be an integer). -/
theorem C3_canonical_shape (v : JSValue) (s : String)
    (h : toProductGid v = some s) :
    jsStartsWith s ("gid://shopify/Product/") = true ∧
    (s = jsToString v ∨
      ∃ q : ℚ, jsStringToNumber (jsToString v) = .finite q ∧ 0 < q ∧
        s = "gid://shopify/Product/" ++ jsNumToString (.finite q)) := by
  rcases toProductGid_shape v s h with ⟨h1, h2⟩ | ⟨q, h1, h2, h3⟩
  · exact ⟨h2, Or.inl h1⟩
  · refine ⟨?_, Or.inr ⟨q, h1, h2, h3⟩⟩
    rw [h3]
    exact jsStartsWith_append _ _

set_option maxRecDepth 100000 in
theorem C3_canonical_shape_witness :
    jsStartsWith ("gid://shopify/Product/42") ("gid://shopify/Product/") = true ∧
    (("gid://shopify/Product/42" : String) = jsToString (.str "42") ∨
      ∃ q : ℚ, jsStringToNumber (jsToString (.str "42")) = .finite q ∧ 0 < q ∧
        "gid://shopify/Product/42" = "gid://shopify/Product/" ++ jsNumToString (.finite q)) :=
  C3_canonical_shape (.str "42") ("gid://shopify/Product/42") (by with_unfolding_all rfl)

set_option maxRecDepth 100000 in
/-- C4 counterexample: "gid://shopify/Product/xyz0" is a non-numeric
string and not an already-canonical reference, yet it does not normalize
to failure — the prefix fast path returns it unchanged. -/
theorem C4_normalizer_counterexample :
    jsStringToNumber ("gid://shopify/Product/xyz0") = .nan ∧
    isCanonicalRef ("gid://shopify/Product/xyz0") = false ∧
    toProductGid (.str "gid://shopify/Product/xyz0")
      = some ("gid://shopify/Product/xyz0") := by
  exact ⟨by decide, by decide, by with_unfolding_all rfl⟩

/-- C4 (amended): the normalizer returns every prefix-carrying string
unchanged (in particular it is idempotent on already-canonical
references); it embeds every positive finite number M/10^k — non-integers
included, with no rounding — as the prefix followed by that number's
decimal rendering; every nonpositive finite number, NaN and both
infinities normalize to failure; and every non-numeric string that does
not carry the prefix normalizes to failure. -/
theorem C4_normalizer_algebra :
    (∀ s : String, isCanonicalRef s = true → toProductGid (.str s) = some s) ∧
    (∀ s : String, jsStartsWith s ("gid://shopify/Product/") = true →
      toProductGid (.str s) = some s) ∧
    (∀ M k : ℕ, 0 < M →
      toProductGid (.num (.finite ((M : ℚ) / 10 ^ k)))
        = some ("gid://shopify/Product/" ++ jsNumToString (.finite ((M : ℚ) / 10 ^ k)))) ∧
    (∀ M k : ℕ, toProductGid (.num (.finite (-((M : ℚ) / 10 ^ k)))) = none) ∧
    (toProductGid (.num .nan) = none ∧ toProductGid (.num .inf) = none ∧
      toProductGid (.num .negInf) = none) ∧
    (∀ s : String, jsStringToNumber s = .nan →
      jsStartsWith s ("gid://shopify/Product/") = false →
      toProductGid (.str s) = none) := by
  have hcast : ∀ M : ℕ, (((M : ℤ) : ℚ)) = ((M : ℕ) : ℚ) := by
    intro M
    push_cast
    ring
  have hterm : ∀ M k : ℕ, denTerminating ((M : ℚ) / 10 ^ k).den = true := by
    intro M k
    have := denTerminating_div_pow10 (M : ℤ) k
    rwa [hcast M] at this
  refine ⟨?_, ?_, ?_, ?_, ⟨rfl, rfl, rfl⟩, ?_⟩
  · intro s hs
    exact toProductGid_of_startsWith s (isCanonicalRef_startsWith s hs)
  · exact toProductGid_of_startsWith
  · intro M k hM
    refine toProductGid_finite_pos _ (hterm M k) ?_
    have hM0 : (0 : ℚ) < (M : ℚ) := by exact_mod_cast hM
    positivity
  · intro M k
    refine toProductGid_finite_nonpos _ ?_ ?_
    · rw [Rat.den_neg_eq_den]
      exact hterm M k
    · have h0 : (0 : ℚ) ≤ (M : ℚ) / 10 ^ k := by positivity
      linarith
  · exact toProductGid_nan_str

set_option maxRecDepth 100000 in
theorem C4_normalizer_algebra_witness :
    toProductGid (.str "gid://shopify/Product/7") = some ("gid://shopify/Product/7") ∧
    toProductGid (.num (.finite ((35 : ℚ) / 10 ^ 1)))
      = some ("gid://shopify/Product/" ++ jsNumToString (.finite ((35 : ℚ) / 10 ^ 1))) ∧
    toProductGid (.num (.finite (-((3 : ℚ) / 10 ^ 0)))) = none ∧
    toProductGid (.str "abc") = none := by
  refine ⟨C4_normalizer_algebra.1 ("gid://shopify/Product/7") (by decide), ?_, ?_, ?_⟩
  · have h := C4_normalizer_algebra.2.2.1 35 1 (by decide)
    have hc : ((35 : ℕ) : ℚ) = (35 : ℚ) := by norm_num
    rwa [hc] at h
  · have h := C4_normalizer_algebra.2.2.2.1 3 0
    have hc : ((3 : ℕ) : ℚ) = (3 : ℚ) := by norm_num
    rwa [hc] at h
  · exact C4_normalizer_algebra.2.2.2.2.2 ("abc") (by decide) (by decide)

/-- C5: the rating check passes exactly the values whose straightforward
numeric parse is an integer between 1 and 5 — ratings 1 and 5 pass, 0, 6,
3.5 and "abc" fail — and in both handlers a rejected rating produces the
user message "Rating must be 1..5". -/
theorem C5_rating_check :
    (∀ v : JSValue, ratingRejected v = false ↔
      ∃ q : ℚ, jsToNumber v = .finite q ∧ q.den = 1 ∧ 1 ≤ q ∧ q ≤ 5) ∧
    (ratingRejected (.str "1") = false ∧ ratingRejected (.str "5") = false ∧
      ratingRejected (.str "0") = true ∧ ratingRejected (.str "6") = true ∧
      ratingRejected (.str "3.5") = true ∧ ratingRejected (.str "abc") = true) ∧
    (∀ (sub : SubReq) (env : Env) (remote : RemoteOutcome) (now : String) (g : String),
      resolveShop sub ≠ "" → devGateBlocked env (resolveShop sub) = false →
      toProductGid (jsNullish sub.product_id sub.productId) = some g →
      ratingRejected sub.rating = true →
      (apiSubmit sub env remote now).directive.message = some ("Rating must be 1..5")) ∧
    (∀ (sub : SubReq) (store : String → SessionLookup) (remote : RemoteOutcome)
        (now : String) (g : String),
      resolveShop sub ≠ "" →
      toProductGid (jsNullish sub.product_id sub.productId) = some g →
      ratingRejected sub.rating = true →
      (webSubmit sub store remote now).directive.message = some ("Rating must be 1..5")) := by
  refine ⟨?_, ?_, ?_, ?_⟩
  · intro v
    unfold ratingRejected
    cases hr : jsToNumber v with
    | nan => simp [jsIsInteger, jsLt, jsGt]
    | inf => simp [jsIsInteger, jsLt, jsGt]
    | negInf => simp [jsIsInteger, jsLt, jsGt]
    | finite q =>
      simp only [jsIsInteger, jsLt, jsGt, Bool.or_eq_false_iff, Bool.not_eq_false',
        beq_iff_eq, decide_eq_false_iff_not, not_lt, JSNumber.finite.injEq]
      constructor
      · rintro ⟨⟨hden, h1⟩, h5⟩
        exact ⟨q, rfl, hden, h1, h5⟩
      · rintro ⟨q', hq', hden, h1, h5⟩
        cases hq'
        exact ⟨⟨hden, h1⟩, h5⟩
  · refine ⟨?_, ?_, ?_, ?_, ?_, ?_⟩ <;> with_unfolding_all decide
  · intro sub env remote now g h1 h2 hg hr
    rw [apiSubmit_invalidRating sub env remote now g h1 h2 hg hr]
    rfl
  · intro sub store remote now g h1 hg hr
    rw [webSubmit_invalidRating sub store remote now g h1 hg hr]
    rfl

set_option maxRecDepth 100000 in
theorem C5_rating_check_witness :
    (apiSubmit subBadRating envOK (.body rawOkBody) ("T")).directive.message
      = some ("Rating must be 1..5") ∧
    (webSubmit subBadRating storeOK (.body rawOkBody) ("T")).directive.message
      = some ("Rating must be 1..5") :=
  ⟨C5_rating_check.2.2.1 subBadRating envOK (.body rawOkBody) ("T")
      ("gid://shopify/Product/42") (by decide) (by decide) (by with_unfolding_all rfl) (by rfl),
    C5_rating_check.2.2.2 subBadRating storeOK (.body rawOkBody) ("T")
      ("gid://shopify/Product/42") (by decide) (by with_unfolding_all rfl) (by rfl)⟩

/-- C6: a tenant with no stored offline-class credential always yields
Unauthorized with the message "App not authorized for this shop" when the
remaining input is valid, and such a submission never triggers the remote
call (in the web handler, regardless of the validity of the rest of the
input; in the api handler the dev-credential gate fires even before
validation). -/
theorem C6_unauthorized_gate :
    (∀ (sub : SubReq) (store : String → SessionLookup) (remote : RemoteOutcome)
        (now : String) (g : String),
      resolveShop sub ≠ "" →
      toProductGid (jsNullish sub.product_id sub.productId) = some g →
      ratingRejected sub.rating = false →
      store (resolveShop sub) = .res none →
      (webSubmit sub store remote now).directive
        = ⟨false, resolveReturnTo sub, none, some ("App not authorized for this shop")⟩ ∧
      (webSubmit sub store remote now).calledRemote = false) ∧
    (∀ (sub : SubReq) (store : String → SessionLookup) (remote : RemoteOutcome) (now : String),
      store (resolveShop sub) = .res none →
      (webSubmit sub store remote now).calledRemote = false) ∧
    (∀ (sub : SubReq) (env : Env) (remote : RemoteOutcome) (now : String),
      resolveShop sub ≠ "" → devGateBlocked env (resolveShop sub) = true →
      (apiSubmit sub env remote now).directive
        = ⟨false, resolveReturnTo sub, none, some ("App not authorized for this shop")⟩ ∧
      (apiSubmit sub env remote now).calledRemote = false) := by
  refine ⟨?_, ?_, ?_⟩
  · intro sub store remote now g h1 hg hr hs
    rw [webSubmit_unauthorized sub store remote now g none h1 hg hr hs rfl]
    exact ⟨rfl, rfl⟩
  · exact webSubmit_nocred_no_remote
  · intro sub env remote now h1 h2
    rw [apiSubmit_unauthorized sub env remote now h1 h2]
    exact ⟨rfl, rfl⟩

set_option maxRecDepth 100000 in
theorem C6_unauthorized_gate_witness :
    ((webSubmit subOK storeEmpty (.body rawOkBody) ("T")).directive
        = ⟨false, resolveReturnTo subOK, none, some ("App not authorized for this shop")⟩ ∧
      (webSubmit subOK storeEmpty (.body rawOkBody) ("T")).calledRemote = false) ∧
    ((apiSubmit subOK envOther (.body rawOkBody) ("T")).directive
        = ⟨false, resolveReturnTo subOK, none, some ("App not authorized for this shop")⟩ ∧
      (apiSubmit subOK envOther (.body rawOkBody) ("T")).calledRemote = false) :=
  ⟨C6_unauthorized_gate.1 subOK storeEmpty (.body rawOkBody) ("T")
      ("gid://shopify/Product/42") (by decide) (by with_unfolding_all rfl)
      (by with_unfolding_all rfl) (by rfl),
    C6_unauthorized_gate.2.2 subOK envOther (.body rawOkBody) ("T") (by decide) (by decide)⟩

/-- C7: for every validated submission, the mutation payload is exactly
the eight fields, in order: product reference, stringified rating, title,
body, author, email, the constant status "approved", and the creation
timestamp (the handlers' new Date().toISOString() value, passed here as
`now`) — with the status constant independent of the input. -/
theorem C7_mutation_builder :
    (∀ (sub : SubReq) (env : Env) (remote : RemoteOutcome) (now : String) (g : String),
      resolveShop sub ≠ "" → devGateBlocked env (resolveShop sub) = false →
      toProductGid (jsNullish sub.product_id sub.productId) = some g →
      ratingRejected sub.rating = false →
      (apiSubmit sub env remote now).payload
        = some [("product", g), ("rating", jsNumToString (jsToNumber sub.rating)),
            ("title", strField sub.title), ("body", strField sub.body),
            ("author", strField sub.author), ("email", strField sub.email),
            ("status", "approved"), ("created", now)]) ∧
    (∀ (sub : SubReq) (store : String → SessionLookup) (remote : RemoteOutcome)
        (now : String) (g : String) (tok : Option String),
      resolveShop sub ≠ "" →
      toProductGid (jsNullish sub.product_id sub.productId) = some g →
      ratingRejected sub.rating = false →
      store (resolveShop sub) = .res tok → tok.getD ("") ≠ "" →
      (webSubmit sub store remote now).payload
        = some [("product", g), ("rating", jsNumToString (jsToNumber sub.rating)),
            ("title", strField sub.title), ("body", strField sub.body),
            ("author", strField sub.author), ("email", strField sub.email),
            ("status", "approved"), ("created", now)]) := by
  constructor
  · intro sub env remote now g h1 h2 hg hr
    rw [apiSubmit_remote sub env remote now g h1 h2 hg hr]
    rfl
  · intro sub store remote now g tok h1 hg hr hs ht
    rw [webSubmit_remote sub store remote now g tok h1 hg hr hs ht]
    rfl

set_option maxRecDepth 100000 in
theorem C7_mutation_builder_witness :
    (apiSubmit subOK envOK (.body rawOkBody) ("2026-01-01T00:00:00.000Z")).payload
      = some [("product", "gid://shopify/Product/42"),
          ("rating", jsNumToString (jsToNumber subOK.rating)),
          ("title", strField subOK.title), ("body", strField subOK.body),
          ("author", strField subOK.author), ("email", strField subOK.email),
          ("status", "approved"), ("created", "2026-01-01T00:00:00.000Z")] :=
  C7_mutation_builder.1 subOK envOK (.body rawOkBody) ("2026-01-01T00:00:00.000Z")
    ("gid://shopify/Product/42") (by decide) (by decide)
    (by with_unfolding_all rfl) (by rfl)

/-- C10 (implicit): the handlers are total over the exceptions the
embedding models — an exception from the remote call or (in the web
handler) from the credential lookup is caught and mapped to ok:false,
message "Server error", with the already-computed return-navigation
target; and every invocation, exceptional or not, still renders through
sendHtml. -/
theorem C10_exception_totality :
    (∀ (sub : SubReq) (env : Env) (now : String) (g : String),
      resolveShop sub ≠ "" → devGateBlocked env (resolveShop sub) = false →
      toProductGid (jsNullish sub.product_id sub.productId) = some g →
      ratingRejected sub.rating = false →
      (apiSubmit sub env .throws now).directive
        = ⟨false, resolveReturnTo sub, none, some ("Server error")⟩) ∧
    (∀ (sub : SubReq) (store : String → SessionLookup) (now : String) (g : String)
        (tok : Option String),
      resolveShop sub ≠ "" →
      toProductGid (jsNullish sub.product_id sub.productId) = some g →
      ratingRejected sub.rating = false →
      store (resolveShop sub) = .res tok → tok.getD ("") ≠ "" →
      (webSubmit sub store .throws now).directive
        = ⟨false, resolveReturnTo sub, none, some ("Server error")⟩) ∧
    (∀ (sub : SubReq) (store : String → SessionLookup) (remote : RemoteOutcome)
        (now : String) (g : String),
      resolveShop sub ≠ "" →
      toProductGid (jsNullish sub.product_id sub.productId) = some g →
      ratingRejected sub.rating = false →
      store (resolveShop sub) = .crash →
      (webSubmit sub store remote now).directive
        = ⟨false, resolveReturnTo sub, none, some ("Server error")⟩) ∧
    (∀ (sub : SubReq) (env : Env) (store : String → SessionLookup)
        (remote : RemoteOutcome) (now : String),
      apiRespond sub env remote now = apiSendHtml (apiSubmit sub env remote now).directive ∧
      webRespond sub store remote now = webSendHtml (webSubmit sub store remote now).directive) := by
  refine ⟨?_, ?_, ?_, fun _ _ _ _ _ => ⟨rfl, rfl⟩⟩
  · intro sub env now g h1 h2 hg hr
    rw [apiSubmit_remote sub env .throws now g h1 h2 hg hr]
    rfl
  · intro sub store now g tok h1 hg hr hs ht
    rw [webSubmit_remote sub store .throws now g tok h1 hg hr hs ht]
    rfl
  · intro sub store remote now g h1 hg hr hs
    rw [webSubmit_crash sub store remote now g h1 hg hr hs]
    rfl

set_option maxRecDepth 100000 in
theorem C10_exception_totality_witness :
    (apiSubmit subOK envOK .throws ("T")).directive
      = ⟨false, resolveReturnTo subOK, none, some ("Server error")⟩ ∧
    (webSubmit subOK storeOK .throws ("T")).directive
      = ⟨false, resolveReturnTo subOK, none, some ("Server error")⟩ ∧
    (webSubmit subOK (fun _ => .crash) (.body rawOkBody) ("T")).directive
      = ⟨false, resolveReturnTo subOK, none, some ("Server error")⟩ :=
  ⟨C10_exception_totality.1 subOK envOK ("T") ("gid://shopify/Product/42")
      (by decide) (by decide) (by with_unfolding_all rfl) (by rfl),
    C10_exception_totality.2.1 subOK storeOK ("T") ("gid://shopify/Product/42")
      (some "offline-token") (by decide) (by with_unfolding_all rfl) (by rfl)
      (by rfl) (by decide),
    C10_exception_totality.2.2.1 subOK (fun _ => .crash) (.body rawOkBody) ("T")
      ("gid://shopify/Product/42") (by decide) (by with_unfolding_all rfl)
      (by rfl) (by rfl)⟩
